import Mathlib

/-!
Verification of the govaccine polling/booking orchestration against its
specification.  The Go source is embedded shallowly: pure computations become
Lean functions, the per-cycle worker control flow becomes a straight-line
function over an oracle of remote-call results, and the multi-goroutine
stop/lock protocol becomes an explicit transition system.
-/

namespace Govaccine

/-- doctolib.BookingProfile. -/
structure BookingProfile where
  id : Int
deriving DecidableEq

/-- doctolib.BookingVisitMotive. -/
structure BookingVisitMotive where
  id : Int
  name : String
deriving DecidableEq

/-- doctolib.BookingAgenda. -/
structure BookingAgenda where
  id : Int
  bookingDisabled : Bool
  bookingTemporaryDisabled : Bool
  visitMotiveIds : List Int
  practiceId : Int
deriving DecidableEq

/-- doctolib.BookingResponseData. -/
structure BookingResponseData where
  profile : BookingProfile
  visitMotives : List BookingVisitMotive
  agendas : List BookingAgenda
deriving DecidableEq

/-- doctolib.BookingResponse (CsrfToken is read from the response header). -/
structure BookingResponse where
  data : BookingResponseData
  csrfToken : String
deriving DecidableEq

/-- doctolib.availabilitySlotStep. -/
structure AvailabilitySlotStep where
  startDate : String
deriving DecidableEq

/-- doctolib.availabilitySlot. -/
structure AvailabilitySlot where
  startDate : String
  steps : List AvailabilitySlotStep
deriving DecidableEq

/-- doctolib.availability. -/
structure Availability where
  date : String
  slots : List AvailabilitySlot
deriving DecidableEq

/-- doctolib.AvailabilitiesResponse. -/
structure AvailabilitiesResponse where
  availabilities : List Availability
  total : Int
  csrfToken : String
deriving DecidableEq

/-- doctolib.CreateAppointmentResponse. -/
structure CreateAppointmentResponse where
  id : String
  csrfToken : String
deriving DecidableEq

/-- doctolib.MasterPatient. -/
structure MasterPatient where
  id : Int
  firstName : String
  lastName : String
  kind : String
  gender : Bool
  birthdate : String
  isComplete : Bool
  hasOwnEmail : Bool
  hasOwnPhoneNumber : Bool
  email : String
  phoneNumber : String
  mismatchInsurance : Bool
  consented : Bool
deriving DecidableEq

/-- doctolib.MasterPatientsResponse. -/
structure MasterPatientsResponse where
  masterPatients : List MasterPatient
  csrfToken : String
deriving DecidableEq

/-- doctolib.ConfirmAppointmentResponse. -/
structure ConfirmAppointmentResponse where
  csrfToken : String
deriving DecidableEq

/-- doctolib.LoginResponse. -/
structure LoginResponse where
  id : Int
  fullName : String
  csrfToken : String
deriving DecidableEq

/-- Modelled from the spec: utils.IntSliceContains (source file not included in
the repository snapshot); per the spec's words it tests whether the slice
contains the given id. -/
def IntSliceContains (xs : List Int) (x : Int) : Bool :=
  xs.contains x

/-- govaccine.vaccinationSettings. -/
structure VaccinationSettings where
  profileId : Int
  visitMotiveIds : List Int
  agendaIds : List Int
  practiceIds : List Int
  csrfToken : String
deriving DecidableEq

/-- govaccine.PfizerBiontechVaccineVisitMotiveName. -/
def PfizerBiontechVaccineVisitMotiveName : String :=
  "1re injection vaccin COVID-19 (Pfizer-BioNTech)"

/-- The first loop of govaccine.getVaccinationSettings: scan the visit motives,
skip names that differ from the Pfizer-BioNTech label, fail as soon as a second
match is found, otherwise append the matching id. -/
def collectVisitMotiveIds : List BookingVisitMotive → List Int →
    Except String (List Int)
  | [], acc => .ok acc
  | visitMotive :: rest, acc =>
    if visitMotive.name != PfizerBiontechVaccineVisitMotiveName then
      collectVisitMotiveIds rest acc
    else if acc.length > 0 then
      .error "unhandled case: vaccination center has multiple choices for Pfizer-BioNTech 1st injection"
    else
      collectVisitMotiveIds rest (acc ++ [visitMotive.id])

/-- The second loop of govaccine.getVaccinationSettings: scan the agendas, skip
those whose motive set lacks the chosen motive id, skip (with a warning) those
flagged disabled, append the agenda id, and append the practice id if not
already present. -/
def collectAgendaAndPracticeIds : List BookingAgenda → Int → List Int →
    List Int → List Int × List Int
  | [], _, agendaIds, practiceIds => (agendaIds, practiceIds)
  | agenda :: rest, motiveId, agendaIds, practiceIds =>
    if !(IntSliceContains agenda.visitMotiveIds motiveId) then
      collectAgendaAndPracticeIds rest motiveId agendaIds practiceIds
    else if agenda.bookingDisabled || agenda.bookingTemporaryDisabled then
      collectAgendaAndPracticeIds rest motiveId agendaIds practiceIds
    else
      let agendaIds2 := agendaIds ++ [agenda.id]
      let practiceIds2 :=
        if !(IntSliceContains practiceIds agenda.practiceId) then
          practiceIds ++ [agenda.practiceId]
        else practiceIds
      collectAgendaAndPracticeIds rest motiveId agendaIds2 practiceIds2

/-- govaccine.getVaccinationSettings, from the point where GetBooking has
succeeded and its decoded response is in hand. -/
def getVaccinationSettingsOfBooking (bookingResponse : BookingResponse) :
    Except String VaccinationSettings :=
  match collectVisitMotiveIds bookingResponse.data.visitMotives [] with
  | .error e => .error e
  | .ok visitMotiveIds =>
    match visitMotiveIds with
    | [] => .error "cannot find any visit motive ID for vaccination center"
    | motiveId0 :: _ =>
      let pair := collectAgendaAndPracticeIds bookingResponse.data.agendas
        motiveId0 [] []
      match pair.1 with
      | [] => .error "cannot find any agenda/practice IDs for vaccination center"
      | _ :: _ =>
        .ok { profileId := bookingResponse.data.profile.id
              visitMotiveIds := visitMotiveIds
              agendaIds := pair.1
              practiceIds := pair.2
              csrfToken := bookingResponse.csrfToken }

/-- govaccine.getVaccinationSettings: wrap the GetBooking call result; a
transport-level failure is propagated. -/
def getVaccinationSettings (bookingResult : Except String BookingResponse) :
    Except String VaccinationSettings :=
  match bookingResult with
  | .error e => .error e
  | .ok bookingResponse => getVaccinationSettingsOfBooking bookingResponse

/-- Spec-side characterisation: the visit motives whose name exactly matches
the known offering label. -/
def motiveMatches (resp : BookingResponse) : List BookingVisitMotive :=
  resp.data.visitMotives.filter
    (fun m => m.name == PfizerBiontechVaccineVisitMotiveName)

/-- Spec-side characterisation: an agenda is eligible when its motive set
contains the chosen motive id and it is not flagged disabled or temporarily
disabled. -/
def agendaEligible (motiveId : Int) (a : BookingAgenda) : Bool :=
  a.visitMotiveIds.contains motiveId &&
    !(a.bookingDisabled || a.bookingTemporaryDisabled)

/-- Spec-side characterisation: deduplication keeping the first occurrence of
each id, in first-seen order. -/
def dedupFirstSeen (xs : List Int) : List Int :=
  xs.foldl (fun acc x => if acc.contains x then acc else acc ++ [x]) []

/-- First-seen deduplication continued from an accumulator (the loop shape of
the practice-id collection). -/
def dedupAppendFrom (acc : List Int) (xs : List Int) : List Int :=
  xs.foldl (fun a x => if a.contains x then a else a ++ [x]) acc

/-- Settings resolution written from the spec's words, for comparison with the
source translation: exactly one matching motive, every eligible agenda, and
practice ids deduplicated in first-seen order; zero eligible agendas is an
error. -/
def specResolveSettings (resp : BookingResponse) :
    Except String VaccinationSettings :=
  match motiveMatches resp with
  | [m] =>
    let eligible := resp.data.agendas.filter (agendaEligible m.id)
    match eligible with
    | [] => .error "no eligible agenda"
    | _ :: _ =>
      .ok { profileId := resp.data.profile.id
            visitMotiveIds := [m.id]
            agendaIds := eligible.map (·.id)
            practiceIds := dedupFirstSeen (eligible.map (·.practiceId))
            csrfToken := resp.csrfToken }
  | _ => .error "matching visit motive count is not one"

/-- Two fallible results agree up to the error message text. -/
def sameExceptMessage {α : Type} : Except String α → Except String α → Prop
  | .ok a, .ok b => a = b
  | .error _, .error _ => True
  | _, _ => False

/-- doctolib.RootUrl. -/
def RootUrl : String := "https://doctolib.fr"

/-- Go fmt.Sprint on an int slice: elements separated by single spaces,
wrapped in square brackets. -/
def goSprintIntList (xs : List Int) : String :=
  "[" ++ " ".intercalate (xs.map toString) ++ "]"

/-- Go strings.Trim: remove every leading and trailing character belonging to
the cutset. -/
def goStringsTrim (s : String) (cutset : List Char) : String :=
  String.mk
    (((s.data.dropWhile (fun c => cutset.contains c)).reverse.dropWhile
      (fun c => cutset.contains c)).reverse)

/-- The id-list formatting used by doctolib.GetAvailabilities and
doctolib.CreateAppointment: Sprint, split on spaces, join with dashes, trim the
brackets. -/
def formatIdList (xs : List Int) : String :=
  goStringsTrim ("-".intercalate ((goSprintIntList xs).splitOn " "))
    ['[', ']']

/-- The URL built by doctolib.GetAvailabilities.  The start date is the
stdlib-formatted date string and the optional first slot is the
stdlib-formatted and query-escaped anchor datetime; both formatters are Go
standard library collaborators and stay abstract. -/
def getAvailabilitiesUrl (formattedStartDate : String)
    (firstSlotFormatted : Option String) (visitMotiveIds : List Int)
    (agendaIds : List Int) (practiceIds : List Int) (limit : Int) : String :=
  let url0 :=
    match firstSlotFormatted with
    | some _ => RootUrl ++ "/second_shot_availabilities.json"
    | none => RootUrl ++ "/availabilities.json"
  let url1 := url0 ++ "?start_date=" ++ formattedStartDate ++ "&limit=" ++
    toString limit ++ "&visit_motive_ids=" ++ formatIdList visitMotiveIds ++
    "&agenda_ids=" ++ formatIdList agendaIds ++ "&practice_ids=" ++
    formatIdList practiceIds ++ "&insurance_sector=public"
  match firstSlotFormatted with
  | some formattedFirstSlot => url1 ++ "&first_slot=" ++ formattedFirstSlot
  | none => url1 ++ "&destroy_temporary=true"

/-- The body of the range loop in doctolib.GetMasterPatients: the iteration
variable is a value copy whose insurance-mismatch and consent flags are
overwritten. -/
def normalizeMasterPatientCopy (masterPatient : MasterPatient) : MasterPatient :=
  { masterPatient with mismatchInsurance := false, consented := true }

/-- The range loop of doctolib.GetMasterPatients: each iteration binds a copy
of the element, mutates the copy, and discards it; the slice itself is the
loop-carried value and is never written. -/
def masterPatientsAfterLoop (masterPatients : List MasterPatient) :
    List MasterPatient :=
  masterPatients.foldl
    (fun current masterPatient =>
      let _copy := normalizeMasterPatientCopy masterPatient
      current)
    masterPatients

/-- doctolib.GetMasterPatients, from the point where the response body has been
decoded into a patient list and the response header token has been read. -/
def getMasterPatientsResult (decoded : List MasterPatient)
    (headerToken : String) : Except String MasterPatientsResponse :=
  let response : MasterPatientsResponse :=
    { masterPatients := masterPatientsAfterLoop decoded
      csrfToken := headerToken }
  if response.csrfToken == "" then
    .error "no CSRF token found in response"
  else
    .ok response

/-- A Go time.Time value; only its fixed-format rendering matters to the
worker, so it is carried as that rendering. -/
structure GoTime where
  rep : String
deriving DecidableEq

/-- One remote request as issued by the worker, with the arguments the worker
computed for it. -/
inductive CallKind where
  | booking (vaccinationCenter : String)
  | availabilities (startDate : GoTime) (firstSlot : Option GoTime)
      (visitMotiveIds : List Int) (agendaIds : List Int)
      (practiceIds : List Int) (limit : Int)
  | createAppointment (startDate : String) (secondSlot : String)
      (visitMotiveIds : List Int) (agendaIds : List Int)
      (practiceIds : List Int) (profileId : Int)
  | masterPatients
  | confirmAppointment (appointmentId : String) (startDate : String)
      (patient : MasterPatient)
deriving DecidableEq

/-- A recorded remote call: the request, the security token presented on it,
and the token the response carried (none when the call failed). -/
structure CallRec where
  kind : CallKind
  presented : String
  returned : Option String
deriving DecidableEq

/-- The oracle for one poll cycle of govaccine.TryBookVaccine: the observed
stop-flag values at the two check points, the current date, the stdlib
timestamp parser, and the result of each remote call the cycle can make (each
of these calls is made at most once per cycle, in a fixed order). -/
structure CycleEnv where
  stopAtDequeue : Bool
  stopUnderLock : Bool
  tomorrow : GoTime
  parse : String → Option GoTime
  bookingRes : Except String BookingResponse
  firstAvailRes : Except String AvailabilitiesResponse
  createFirstRes : Except String CreateAppointmentResponse
  secondAvailRes : Except String AvailabilitiesResponse
  createSecondRes : Except String CreateAppointmentResponse
  masterPatientsRes : Except String MasterPatientsResponse
  confirmRes : Except String ConfirmAppointmentResponse

/-- How one poll cycle ends: the worker returns on the stop signal, continues
with the next dequeued location, books successfully (closing the stop channel),
or panics (a Go index-out-of-range run-time error). -/
inductive CycleOutcome where
  | stopSignal
  | toIdle
  | booked
  | crashed
deriving DecidableEq

/-- The observable result of one poll cycle: the outcome, the worker's
currentCsrfToken afterwards, the remote calls issued, and whether the shared
mutex was still held when the cycle ended. -/
structure CycleResult where
  outcome : CycleOutcome
  token : String
  calls : List CallRec
  lockHeldAtExit : Bool
deriving DecidableEq

/-- Token carried by a successful result, none for a failed call. -/
def returnedToken {α : Type} (f : α → String) :
    Except String α → Option String
  | .ok a => some (f a)
  | .error _ => none

/-- One iteration of the loop of govaccine.TryBookVaccine for one dequeued
vaccination center, translated statement by statement from the source.  Go
slice indexing without a bounds guard becomes an explicit crashed outcome; the
Go panics happen while the indexing expression is evaluated, before the
corresponding request is issued.  The confirm response is discarded by the
source, so a successful confirmation leaves currentCsrfToken at the
master-patients token. -/
def tryBookVaccineCycle (env : CycleEnv) (vaccinationCenter : String)
    (currentCsrfToken : String) : CycleResult :=
  if env.stopAtDequeue then
    { outcome := .stopSignal, token := currentCsrfToken, calls := []
      lockHeldAtExit := false }
  else
    let bookingCall : CallRec :=
      { kind := .booking vaccinationCenter, presented := currentCsrfToken
        returned := returnedToken BookingResponse.csrfToken env.bookingRes }
    let calls1 := [bookingCall]
    match getVaccinationSettings env.bookingRes with
    | .error _ =>
      { outcome := .toIdle, token := currentCsrfToken, calls := calls1
        lockHeldAtExit := false }
    | .ok vaccinationSettings =>
      let tok1 := vaccinationSettings.csrfToken
      let firstAvailCall : CallRec :=
        { kind := .availabilities env.tomorrow none
            vaccinationSettings.visitMotiveIds vaccinationSettings.agendaIds
            vaccinationSettings.practiceIds 1
          presented := tok1
          returned := returnedToken AvailabilitiesResponse.csrfToken
            env.firstAvailRes }
      let calls2 := calls1 ++ [firstAvailCall]
      match env.firstAvailRes with
      | .error _ =>
        { outcome := .toIdle, token := tok1, calls := calls2
          lockHeldAtExit := false }
      | .ok firstShotAvailabilitiesResponse =>
        let tok2 := firstShotAvailabilitiesResponse.csrfToken
        if firstShotAvailabilitiesResponse.total == 0 then
          { outcome := .toIdle, token := tok2, calls := calls2
            lockHeldAtExit := false }
        else
          -- v.mutex.Lock()
          if env.stopUnderLock then
            { outcome := .stopSignal, token := tok2, calls := calls2
              lockHeldAtExit := false }
          else
            match firstShotAvailabilitiesResponse.availabilities with
            | [] =>
              { outcome := .crashed, token := tok2, calls := calls2
                lockHeldAtExit := true }
            | availability0 :: _ =>
              match availability0.slots with
              | [] =>
                { outcome := .crashed, token := tok2, calls := calls2
                  lockHeldAtExit := true }
              | slot0 :: _ =>
                let createFirstCall : CallRec :=
                  { kind := .createAppointment slot0.startDate ""
                      vaccinationSettings.visitMotiveIds
                      vaccinationSettings.agendaIds
                      vaccinationSettings.practiceIds
                      vaccinationSettings.profileId
                    presented := tok2
                    returned := returnedToken CreateAppointmentResponse.csrfToken
                      env.createFirstRes }
                let calls3 := calls2 ++ [createFirstCall]
                match env.createFirstRes with
                | .error _ =>
                  { outcome := .toIdle, token := tok2, calls := calls3
                    lockHeldAtExit := false }
                | .ok createFirstShotAppointmentResponse =>
                  let tok3 := createFirstShotAppointmentResponse.csrfToken
                  match slot0.steps with
                  | [] =>
                    { outcome := .crashed, token := tok3, calls := calls3
                      lockHeldAtExit := true }
                  | [_] =>
                    { outcome := .crashed, token := tok3, calls := calls3
                      lockHeldAtExit := true }
                  | _step0 :: step1 :: _ =>
                    match env.parse step1.startDate with
                    | none =>
                      { outcome := .toIdle, token := tok3, calls := calls3
                        lockHeldAtExit := false }
                    | some secondShotStartDatetime =>
                      match env.parse slot0.startDate with
                      | none =>
                        { outcome := .toIdle, token := tok3, calls := calls3
                          lockHeldAtExit := false }
                      | some firstShotDatetime =>
                        let secondAvailCall : CallRec :=
                          { kind := .availabilities secondShotStartDatetime
                              (some firstShotDatetime)
                              vaccinationSettings.visitMotiveIds
                              vaccinationSettings.agendaIds
                              vaccinationSettings.practiceIds 4
                            presented := tok3
                            returned := returnedToken
                              AvailabilitiesResponse.csrfToken
                              env.secondAvailRes }
                        let calls4 := calls3 ++ [secondAvailCall]
                        match env.secondAvailRes with
                        | .error _ =>
                          { outcome := .toIdle, token := tok3, calls := calls4
                            lockHeldAtExit := false }
                        | .ok secondShotAvailabilitiesResponse =>
                          let tok4 := secondShotAvailabilitiesResponse.csrfToken
                          if secondShotAvailabilitiesResponse.total == 0 then
                            { outcome := .toIdle, token := tok4, calls := calls4
                              lockHeldAtExit := false }
                          else
                            match secondShotAvailabilitiesResponse.availabilities with
                            | [] =>
                              { outcome := .crashed, token := tok4
                                calls := calls4, lockHeldAtExit := true }
                            | secondAvailability0 :: _ =>
                              match secondAvailability0.slots with
                              | [] =>
                                { outcome := .crashed, token := tok4
                                  calls := calls4, lockHeldAtExit := true }
                              | secondSlot0 :: _ =>
                                let createSecondCall : CallRec :=
                                  { kind := .createAppointment slot0.startDate
                                      secondSlot0.startDate
                                      vaccinationSettings.visitMotiveIds
                                      vaccinationSettings.agendaIds
                                      vaccinationSettings.practiceIds
                                      vaccinationSettings.profileId
                                    presented := tok4
                                    returned := returnedToken
                                      CreateAppointmentResponse.csrfToken
                                      env.createSecondRes }
                                let calls5 := calls4 ++ [createSecondCall]
                                match env.createSecondRes with
                                | .error _ =>
                                  { outcome := .toIdle, token := tok4
                                    calls := calls5, lockHeldAtExit := false }
                                | .ok createSecondShotAppointmentResponse =>
                                  let tok5 :=
                                    createSecondShotAppointmentResponse.csrfToken
                                  let masterPatientsCall : CallRec :=
                                    { kind := .masterPatients
                                      presented := tok5
                                      returned := returnedToken
                                        MasterPatientsResponse.csrfToken
                                        env.masterPatientsRes }
                                  let calls6 := calls5 ++ [masterPatientsCall]
                                  match env.masterPatientsRes with
                                  | .error _ =>
                                    { outcome := .toIdle, token := tok5
                                      calls := calls6, lockHeldAtExit := false }
                                  | .ok masterPatientsResponse =>
                                    let tok6 := masterPatientsResponse.csrfToken
                                    match masterPatientsResponse.masterPatients with
                                    | [] =>
                                      { outcome := .crashed, token := tok6
                                        calls := calls6, lockHeldAtExit := true }
                                    | patient0 :: _ =>
                                      let confirmCall : CallRec :=
                                        { kind := .confirmAppointment
                                            createFirstShotAppointmentResponse.id
                                            slot0.startDate patient0
                                          presented := tok6
                                          returned := returnedToken
                                            ConfirmAppointmentResponse.csrfToken
                                            env.confirmRes }
                                      let calls7 := calls6 ++ [confirmCall]
                                      match env.confirmRes with
                                      | .error _ =>
                                        { outcome := .toIdle, token := tok6
                                          calls := calls7
                                          lockHeldAtExit := false }
                                      | .ok _ =>
                                        -- close(v.stop); v.mutex.Unlock()
                                        { outcome := .booked, token := tok6
                                          calls := calls7
                                          lockHeldAtExit := false }

/-- Token chaining over a trace: the first call presents the given token, and
every later call presents the token returned by the call just before it (a
failed call returns nothing and can only be last in a cycle, in which case the
previous token is carried). -/
def chainedFrom : String → List CallRec → Prop
  | _, [] => True
  | tok, c :: rest =>
    c.presented = tok ∧ chainedFrom (c.returned.getD c.presented) rest

/-- The token returned by the last successful call of a trace, starting from
the given token. -/
def lastReturnedFrom (tok : String) (calls : List CallRec) : String :=
  calls.foldl (fun t c => c.returned.getD t) tok

/-- Whether a recorded call is an appointment-create or appointment-confirm
request. -/
def isCreateOrConfirm (c : CallRec) : Bool :=
  match c.kind with
  | .createAppointment _ _ _ _ _ _ => true
  | .confirmAppointment _ _ _ => true
  | _ => false

/-- The per-worker fields of govaccine.Vaccibot that matter to session
identity: every Vaccibot owns its own doctolib client (with its own cookie
jar) and its own currentCsrfToken field. -/
structure VaccibotSession where
  name : String
  currentCsrfToken : String
deriving DecidableEq

/-- govaccine.NewVaccibot restricted to session identity: it creates a fresh
doctolib client for this bot and performs this bot's own login; the bot's
currentCsrfToken starts as the token of that login. -/
def NewVaccibot (name : String) (loginResult : Except String LoginResponse) :
    Except String VaccibotSession :=
  match loginResult with
  | .error e => .error e
  | .ok loginResponse =>
    .ok { name := name, currentCsrfToken := loginResponse.csrfToken }

/-- The worker-creation loop of main: one NewVaccibot call per worker, each
performing its own login (the login oracle is indexed by worker).  Returns the
bots together with the number of login requests issued. -/
def mainCreateVaccibots (workersNb : Nat)
    (loginResults : Nat → Except String LoginResponse) :
    Except String (List VaccibotSession × Nat) :=
  match workersNb with
  | 0 => .ok ([], 0)
  | n + 1 =>
    match mainCreateVaccibots n loginResults with
    | .error e => .error e
    | .ok (bots, logins) =>
      match NewVaccibot ("Worker " ++ toString (n + 1)) (loginResults n) with
      | .error e => .error e
      | .ok bot => .ok (bots ++ [bot], logins + 1)

/-- Writing one bot's currentCsrfToken field (what happens when that bot
completes a remote call). -/
def writeBotToken (bots : List VaccibotSession) (i : Nat) (tok : String) :
    List VaccibotSession :=
  match bots.get? i with
  | none => bots
  | some bot => bots.set i { bot with currentCsrfToken := tok }

/-!
The stop-signal / booking-lock protocol of TryBookVaccine and main, as a
transition system over all goroutines.  Program counters follow the source:
a worker polls (dequeues, checks the stop channel, resolves settings, queries
availability), then waits on the shared mutex, then re-checks the stop channel
while holding it, then runs the create/create/confirm sequence, and finally
closes the stop channel on a successful confirmation.  The orchestrator checks
the stop channel at the top of its loop and otherwise enqueues a location.
utils.IsBoolChannelClosed is modelled from the spec as observing the one-shot
stop flag.
-/

/-- Worker program counter in the stop/lock protocol. -/
inductive WorkerPc where
  | polling
  | waitingLock
  | checkingStop
  | booking
  | terminated
deriving DecidableEq

/-- Orchestrator program counter: at the top-of-loop stop check, about to send
a location into the jobs channel, or done (queue closed). -/
inductive OrchPc where
  | atTop
  | aboutToSend
  | done
deriving DecidableEq

/-- Global state shared by the orchestrator and the workers. -/
structure SysState where
  stopClosed : Bool
  jobsClosed : Bool
  lockHolder : Option Nat
  workerPcs : List WorkerPc
  orchPc : OrchPc
deriving DecidableEq

/-- The program counter of worker i (out-of-range ids read as terminated, and
no transition is enabled for them). -/
def pcAt (s : SysState) (i : Nat) : WorkerPc :=
  s.workerPcs.getD i .terminated

/-- Events of the stop/lock protocol.  A dequeue event covers lines 115-121 of
TryBookVaccine; foundAvailability covers a poll that reached mutex.Lock;
recheck events cover the mandatory stop re-check under the lock; booking-exit
events cover the create/create/confirm sequence, confirm issuance being
distinguished so that confirm requests can be counted. -/
inductive Ev where
  | dequeueSeesStop (i : Nat)
  | dequeueProceeds (i : Nat)
  | foundAvailability (i : Nat)
  | acquireLock (i : Nat)
  | recheckSeesStop (i : Nat)
  | recheckClear (i : Nat)
  | createFails (i : Nat)
  | confirmFails (i : Nat)
  | confirmSucceeds (i : Nat)
  | jobsExhausted (i : Nat)
  | orchChecksStopSet
  | orchChecksStopClear
  | orchSends
deriving DecidableEq

/-- Guarded one-step semantics: none when the event is not enabled in the
state. -/
def stepFn (s : SysState) : Ev → Option SysState
  | .dequeueSeesStop i =>
    if pcAt s i = .polling ∧ s.stopClosed = true then
      some { s with workerPcs := s.workerPcs.set i .terminated }
    else none
  | .dequeueProceeds i =>
    if pcAt s i = .polling ∧ s.stopClosed = false then
      some s
    else none
  | .foundAvailability i =>
    if pcAt s i = .polling then
      some { s with workerPcs := s.workerPcs.set i .waitingLock }
    else none
  | .acquireLock i =>
    if pcAt s i = .waitingLock ∧ s.lockHolder = none then
      some { s with lockHolder := some i
                    workerPcs := s.workerPcs.set i .checkingStop }
    else none
  | .recheckSeesStop i =>
    if pcAt s i = .checkingStop ∧ s.lockHolder = some i ∧
        s.stopClosed = true then
      some { s with lockHolder := none
                    workerPcs := s.workerPcs.set i .terminated }
    else none
  | .recheckClear i =>
    if pcAt s i = .checkingStop ∧ s.lockHolder = some i ∧
        s.stopClosed = false then
      some { s with workerPcs := s.workerPcs.set i .booking }
    else none
  | .createFails i =>
    if pcAt s i = .booking ∧ s.lockHolder = some i then
      some { s with lockHolder := none
                    workerPcs := s.workerPcs.set i .polling }
    else none
  | .confirmFails i =>
    if pcAt s i = .booking ∧ s.lockHolder = some i then
      some { s with lockHolder := none
                    workerPcs := s.workerPcs.set i .polling }
    else none
  | .confirmSucceeds i =>
    if pcAt s i = .booking ∧ s.lockHolder = some i then
      some { s with stopClosed := true
                    lockHolder := none
                    workerPcs := s.workerPcs.set i .polling }
    else none
  | .jobsExhausted i =>
    if pcAt s i = .polling ∧ s.jobsClosed = true then
      some { s with workerPcs := s.workerPcs.set i .terminated }
    else none
  | .orchChecksStopSet =>
    if s.orchPc = .atTop ∧ s.stopClosed = true then
      some { s with jobsClosed := true, orchPc := .done }
    else none
  | .orchChecksStopClear =>
    if s.orchPc = .atTop ∧ s.stopClosed = false then
      some { s with orchPc := .aboutToSend }
    else none
  | .orchSends =>
    if s.orchPc = .aboutToSend then
      some { s with orchPc := .atTop }
    else none

/-- Run a list of events from a state; none if some event is not enabled. -/
def runEvents : SysState → List Ev → Option SysState
  | s, [] => some s
  | s, e :: rest =>
    match stepFn s e with
    | none => none
    | some s2 => runEvents s2 rest

/-- The startup state built by main: stop channel open, jobs channel open, no
lock holder, n workers polling, orchestrator at the top of its loop. -/
def initState (n : Nat) : SysState :=
  { stopClosed := false, jobsClosed := false, lockHolder := none
    workerPcs := List.replicate n .polling, orchPc := .atTop }

/-- Whether an event is a successful confirmation (the only event that closes
the stop channel). -/
def isConfirmSuccessEv : Ev → Bool
  | .confirmSucceeds _ => true
  | _ => false

/-- Whether an event issues a confirm request (successful or not). -/
def isConfirmIssueEv : Ev → Bool
  | .confirmSucceeds _ => true
  | .confirmFails _ => true
  | _ => false

/-- Whether an event issues a create or confirm request. -/
def isBookingCallEv : Ev → Bool
  | .createFails _ => true
  | .confirmFails _ => true
  | .confirmSucceeds _ => true
  | _ => false

/-- Whether an event enqueues a location into the jobs channel. -/
def isEnqueueEv : Ev → Bool
  | .orchSends => true
  | _ => false

/-- Number of successful confirmations in an event list. -/
def confirmCount (evs : List Ev) : Nat :=
  (evs.filter isConfirmSuccessEv).length

/-- The mutual-exclusion and stop invariant of the protocol: a worker at the
stop re-check or in the booking sequence holds the lock, and a worker in the
booking sequence can only be there while the stop channel is open. -/
def Inv (s : SysState) : Prop :=
  (∀ i : Nat, pcAt s i = .checkingStop → s.lockHolder = some i) ∧
  (∀ i : Nat, pcAt s i = .booking →
    s.lockHolder = some i ∧ s.stopClosed = false)

/-- A two-worker demonstration run in which worker 0 books successfully. -/
def c1DemoEvs : List Ev :=
  [.dequeueProceeds 0, .foundAvailability 0, .acquireLock 0, .recheckClear 0,
   .confirmSucceeds 0]

/-- The state reached by the demonstration run of c1DemoEvs from two workers. -/
def c1DemoFinal : SysState :=
  { stopClosed := true, jobsClosed := false, lockHolder := none
    workerPcs := [.polling, .polling], orchPc := .atTop }

/-- A two-worker demonstration run in which worker 0 books successfully while
worker 1 is queueing for the lock, and worker 1 then acquires the lock after
the stop channel is already closed. -/
def c8DemoEvs : List Ev :=
  [.dequeueProceeds 0, .foundAvailability 0, .dequeueProceeds 1,
   .foundAvailability 1, .acquireLock 0, .recheckClear 0, .confirmSucceeds 0,
   .acquireLock 1]

/-- The state reached by the demonstration run of c8DemoEvs from two
workers: stop closed, worker 1 holding the lock at the mandatory re-check. -/
def c8DemoFinal : SysState :=
  { stopClosed := true, jobsClosed := false, lockHolder := some 1
    workerPcs := [.polling, .checkingStop], orchPc := .atTop }

/-- A cycle oracle for the all-successful path: stop never observed, every
remote call succeeds with the given response. -/
def happyEnv (tomorrow : GoTime) (parse : String → Option GoTime)
    (br : BookingResponse) (a1 : AvailabilitiesResponse)
    (c1r : CreateAppointmentResponse) (a2 : AvailabilitiesResponse)
    (c2r : CreateAppointmentResponse) (pr : MasterPatientsResponse)
    (cfr : ConfirmAppointmentResponse) : CycleEnv :=
  { stopAtDequeue := false, stopUnderLock := false, tomorrow := tomorrow
    parse := parse, bookingRes := .ok br, firstAvailRes := .ok a1
    createFirstRes := .ok c1r, secondAvailRes := .ok a2
    createSecondRes := .ok c2r, masterPatientsRes := .ok pr
    confirmRes := .ok cfr }

/-- An availabilities response is well shaped when a non-zero total comes with
a non-empty availability group holding a non-empty slot list (and, when asked,
a slot carrying at least two steps). -/
def okAvailShape (res : Except String AvailabilitiesResponse)
    (needSteps : Bool) : Prop :=
  ∀ a, res = .ok a → a.total ≠ 0 →
    ∃ av avs sl sls, a.availabilities = av :: avs ∧ av.slots = sl :: sls ∧
      (needSteps = true → ∃ u v w, sl.steps = u :: v :: w)

/-- A master-patients response is well shaped when its patient list is
non-empty. -/
def okPatientsShape (res : Except String MasterPatientsResponse) : Prop :=
  ∀ p, res = .ok p → p.masterPatients ≠ []

/-- A cycle oracle is well shaped when both availability responses and the
patients response satisfy the shape the worker indexes into without checking. -/
def wellShapedEnv (env : CycleEnv) : Prop :=
  okAvailShape env.firstAvailRes true ∧ okAvailShape env.secondAvailRes false ∧
    okPatientsShape env.masterPatientsRes

/-- A cycle in which the booking fetch succeeded but settings resolution
failed: this is the case in which the fetched token is dropped. -/
def settingsDropCase (env : CycleEnv) : Prop :=
  ∃ br, env.bookingRes = .ok br ∧
    ∃ e, getVaccinationSettingsOfBooking br = .error e

/-- The stdlib timestamp parser as used in the demonstrations: every string
parses to its own rendering. -/
def demoParse : String → Option GoTime :=
  fun s => some { rep := s }

/-- A booking response with exactly one matching visit motive and one enabled
agenda. -/
def demoBookingResponse : BookingResponse :=
  { data := { profile := { id := 7 }
              visitMotives :=
                [{ id := 11, name := PfizerBiontechVaccineVisitMotiveName }]
              agendas :=
                [{ id := 21, bookingDisabled := false
                   bookingTemporaryDisabled := false, visitMotiveIds := [11]
                   practiceId := 31 }] }
    csrfToken := "T1" }

/-- A first-dose slot with an embedded second-dose step. -/
def demoSlot : AvailabilitySlot :=
  { startDate := "2021-05-27T10:00:00.000+02:00"
    steps := [{ startDate := "2021-05-27T10:00:00.000+02:00" },
              { startDate := "2021-07-08T10:00:00.000+02:00" }] }

/-- A first-dose availabilities response with one slot. -/
def demoFirstAvail : AvailabilitiesResponse :=
  { availabilities := [{ date := "2021-05-27", slots := [demoSlot] }]
    total := 1, csrfToken := "T2" }

/-- A follow-up availabilities response with one slot. -/
def demoSecondAvail : AvailabilitiesResponse :=
  { availabilities :=
      [{ date := "2021-07-08"
         slots := [{ startDate := "2021-07-08T11:00:00.000+02:00"
                     steps := [] }] }]
    total := 1, csrfToken := "T4" }

/-- A saved patient profile whose insurance-mismatch and consent flags are not
the values the normalization loop tries to write. -/
def demoPatient : MasterPatient :=
  { id := 1, firstName := "A", lastName := "B", kind := "patient"
    gender := false, birthdate := "1990-01-01", isComplete := true
    hasOwnEmail := true, hasOwnPhoneNumber := true, email := "a"
    phoneNumber := "1", mismatchInsurance := true, consented := false }

/-- A fully successful cycle oracle except that the patients response carries
an empty list. -/
def c2EmptyPatientsEnv : CycleEnv :=
  happyEnv { rep := "2021-05-27" } demoParse demoBookingResponse
    demoFirstAvail { id := "A1", csrfToken := "T3" } demoSecondAvail
    { id := "A2", csrfToken := "T5" }
    { masterPatients := [], csrfToken := "T6" } { csrfToken := "T7" }

/-- A fully successful cycle oracle with one saved patient. -/
def c2OnePatientEnv : CycleEnv :=
  happyEnv { rep := "2021-05-27" } demoParse demoBookingResponse
    demoFirstAvail { id := "A1", csrfToken := "T3" } demoSecondAvail
    { id := "A2", csrfToken := "T5" }
    { masterPatients := [demoPatient], csrfToken := "T6" } { csrfToken := "T7" }

/-- A cycle oracle whose first-dose availabilities response reports a non-zero
total while carrying an empty availability list. -/
def c3EmptyListEnv : CycleEnv :=
  happyEnv { rep := "2021-05-27" } demoParse demoBookingResponse
    { availabilities := [], total := 1, csrfToken := "T2" }
    { id := "A1", csrfToken := "T3" } demoSecondAvail
    { id := "A2", csrfToken := "T5" }
    { masterPatients := [demoPatient], csrfToken := "T6" } { csrfToken := "T7" }

/-- A cycle oracle whose booking fetch succeeds (fresh token, no matching
visit motive) and whose availability call fails; settings resolution fails
after the successful fetch. -/
def c4DropEnv : CycleEnv :=
  { stopAtDequeue := false, stopUnderLock := false
    tomorrow := { rep := "2021-05-27" }, parse := demoParse
    bookingRes := .ok { data := { profile := { id := 7 }, visitMotives := []
                                  agendas := [] }
                        csrfToken := "T1" }
    firstAvailRes := .error "unused", createFirstRes := .error "unused"
    secondAvailRes := .error "unused", createSecondRes := .error "unused"
    masterPatientsRes := .error "unused", confirmRes := .error "unused" }

/-- The login oracle of the worker-creation demonstration: worker 0 logs in
with token TA, every other worker with token TB. -/
def c9Logins : Nat → Except String LoginResponse :=
  fun i => .ok { id := 1, fullName := "user"
                 csrfToken := if i = 0 then "TA" else "TB" }

/-- The two bot sessions built by the worker-creation demonstration. -/
def c9Bots : List VaccibotSession :=
  [{ name := "Worker 1", currentCsrfToken := "TA" },
   { name := "Worker 2", currentCsrfToken := "TB" }]

theorem listGetDSetSame {α : Type} (l : List α) (i : Nat) (a d : α)
    (h : i < l.length) : (l.set i a).getD i d = a := by
  induction l generalizing i with
  | nil => simp at h
  | cons x xs ih =>
    cases i with
    | zero => rfl
    | succ j =>
      have hj : j < xs.length := by simpa using h
      simpa using ih j hj

theorem listGetDSetOther {α : Type} (l : List α) (i j : Nat) (a d : α)
    (h : i ≠ j) : (l.set i a).getD j d = l.getD j d := by
  induction l generalizing i j with
  | nil => rfl
  | cons x xs ih =>
    cases i with
    | zero =>
      cases j with
      | zero => exact absurd rfl h
      | succ jj => rfl
    | succ ii =>
      cases j with
      | zero => rfl
      | succ jj =>
        have hij : ii ≠ jj := fun hc => h (by rw [hc])
        simpa using ih ii jj hij

theorem listGetDOutOfRange {α : Type} (l : List α) (i : Nat) (d : α)
    (h : l.length ≤ i) : l.getD i d = d := by
  induction l generalizing i with
  | nil => rfl
  | cons x xs ih =>
    cases i with
    | zero => simp at h
    | succ j =>
      have hj : xs.length ≤ j := by simpa using h
      simpa using ih j hj

theorem listGetDReplicate {α : Type} (n i : Nat) (a d : α) :
    (List.replicate n a).getD i d = a ∨ (List.replicate n a).getD i d = d := by
  induction n generalizing i with
  | zero => right; rfl
  | succ m ih =>
    cases i with
    | zero => left; rfl
    | succ j =>
      rw [List.replicate_succ]
      simpa using ih j

/-- A worker with a live program counter is in range. -/
theorem pcAtInRange (s : SysState) (i : Nat) (h : pcAt s i ≠ .terminated) :
    i < s.workerPcs.length := by
  by_contra hc
  exact h (listGetDOutOfRange s.workerPcs i .terminated (Nat.le_of_not_lt hc))

/-- Every step leaves the stop flag set once it is set, and sets it exactly on
a successful confirmation. -/
theorem stepStopClosed {s s2 : SysState} {e : Ev}
    (h : stepFn s e = some s2) :
    s2.stopClosed = (s.stopClosed || isConfirmSuccessEv e) := by
  cases e <;>
    (simp only [stepFn] at h; split at h <;>
      simp_all [isConfirmSuccessEv] <;> (subst h; simp))

/-- Every step preserves a closed jobs channel. -/
theorem stepJobsClosed {s s2 : SysState} {e : Ev}
    (h : stepFn s e = some s2) (hj : s.jobsClosed = true) :
    s2.jobsClosed = true := by
  cases e <;>
    (simp only [stepFn] at h; split at h <;> simp_all <;> (subst h; simp_all))

/-- A done orchestrator stays done, and cannot be the one sending. -/
theorem stepOrchDone {s s2 : SysState} {e : Ev}
    (h : stepFn s e = some s2) (ho : s.orchPc = .done) :
    s2.orchPc = .done ∧ isEnqueueEv e = false := by
  cases e <;>
    (simp only [stepFn] at h; split at h <;>
      simp_all [isEnqueueEv] <;> (subst h; simp_all))

theorem getDSetSplit (l : List WorkerPc) (i j : Nat) (p : WorkerPc)
    (hi : i < l.length) :
    (l.set i p).getD j .terminated =
      if i = j then p else l.getD j .terminated := by
  by_cases hij : i = j
  · subst hij
    rw [if_pos rfl]
    exact listGetDSetSame l i p .terminated hi
  · rw [if_neg hij]
    exact listGetDSetOther l i j p .terminated hij

/-- Every enabled step preserves the mutual-exclusion and stop invariant. -/
theorem stepPreservesInv {s s2 : SysState} {e : Ev}
    (h : stepFn s e = some s2) (hinv : Inv s) : Inv s2 := by
  obtain ⟨hck, hbk⟩ := hinv
  cases e with
  | dequeueSeesStop i =>
    simp only [stepFn] at h
    split at h
    case isFalse => exact Option.noConfusion h
    rename_i hcond
    rw [Option.some_inj] at h; subst h
    have hi : i < s.workerPcs.length := pcAtInRange s i (by simp [hcond.1])
    refine ⟨?_, ?_⟩ <;> intro j hj <;>
      simp only [pcAt] at hj <;> rw [getDSetSplit _ _ _ _ hi] at hj <;>
      split at hj
    · exact WorkerPc.noConfusion hj
    · exact hck j hj
    · exact WorkerPc.noConfusion hj
    · exact absurd (hbk j hj).2 (by simp [hcond.2])
  | dequeueProceeds i =>
    simp only [stepFn] at h
    split at h
    case isFalse => exact Option.noConfusion h
    rw [Option.some_inj] at h; subst h
    exact ⟨hck, hbk⟩
  | foundAvailability i =>
    simp only [stepFn] at h
    split at h
    case isFalse => exact Option.noConfusion h
    rename_i hcond
    rw [Option.some_inj] at h; subst h
    have hi : i < s.workerPcs.length := pcAtInRange s i (by simp [hcond])
    refine ⟨?_, ?_⟩ <;> intro j hj <;>
      simp only [pcAt] at hj <;> rw [getDSetSplit _ _ _ _ hi] at hj <;>
      split at hj
    · exact WorkerPc.noConfusion hj
    · exact hck j hj
    · exact WorkerPc.noConfusion hj
    · exact hbk j hj
  | acquireLock i =>
    simp only [stepFn] at h
    split at h
    case isFalse => exact Option.noConfusion h
    rename_i hcond
    rw [Option.some_inj] at h; subst h
    have hi : i < s.workerPcs.length := pcAtInRange s i (by simp [hcond.1])
    refine ⟨?_, ?_⟩ <;> intro j hj <;>
      simp only [pcAt] at hj <;> rw [getDSetSplit _ _ _ _ hi] at hj <;>
      split at hj
    · rename_i hij; rw [hij]
    · exact absurd (hck j hj) (by simp [hcond.2])
    · exact WorkerPc.noConfusion hj
    · exact absurd (hbk j hj).1 (by simp [hcond.2])
  | recheckSeesStop i =>
    simp only [stepFn] at h
    split at h
    case isFalse => exact Option.noConfusion h
    rename_i hcond
    rw [Option.some_inj] at h; subst h
    have hi : i < s.workerPcs.length := pcAtInRange s i (by simp [hcond.1])
    refine ⟨?_, ?_⟩ <;> intro j hj <;>
      simp only [pcAt] at hj <;> rw [getDSetSplit _ _ _ _ hi] at hj <;>
      split at hj
    · exact WorkerPc.noConfusion hj
    · rename_i hij
      have hjlock := hck j hj
      rw [hcond.2.1] at hjlock
      exact absurd (Option.some_inj.mp hjlock) hij
    · exact WorkerPc.noConfusion hj
    · rename_i hij
      have hjlock := (hbk j hj).1
      rw [hcond.2.1] at hjlock
      exact absurd (Option.some_inj.mp hjlock) hij
  | recheckClear i =>
    simp only [stepFn] at h
    split at h
    case isFalse => exact Option.noConfusion h
    rename_i hcond
    rw [Option.some_inj] at h; subst h
    have hi : i < s.workerPcs.length := pcAtInRange s i (by simp [hcond.1])
    refine ⟨?_, ?_⟩ <;> intro j hj <;>
      simp only [pcAt] at hj <;> rw [getDSetSplit _ _ _ _ hi] at hj <;>
      split at hj
    · exact WorkerPc.noConfusion hj
    · rename_i hij
      have hjlock := hck j hj
      rw [hcond.2.1] at hjlock
      exact absurd (Option.some_inj.mp hjlock) hij
    · rename_i hij
      rw [hij] at hcond
      exact ⟨hcond.2.1, hcond.2.2⟩
    · rename_i hij
      have hjlock := (hbk j hj).1
      rw [hcond.2.1] at hjlock
      exact absurd (Option.some_inj.mp hjlock) hij
  | createFails i =>
    simp only [stepFn] at h
    split at h
    case isFalse => exact Option.noConfusion h
    rename_i hcond
    rw [Option.some_inj] at h; subst h
    have hi : i < s.workerPcs.length := pcAtInRange s i (by simp [hcond.1])
    refine ⟨?_, ?_⟩ <;> intro j hj <;>
      simp only [pcAt] at hj <;> rw [getDSetSplit _ _ _ _ hi] at hj <;>
      split at hj
    · exact WorkerPc.noConfusion hj
    · rename_i hij
      have hjlock := hck j hj
      rw [hcond.2] at hjlock
      exact absurd (Option.some_inj.mp hjlock) hij
    · exact WorkerPc.noConfusion hj
    · rename_i hij
      have hjlock := (hbk j hj).1
      rw [hcond.2] at hjlock
      exact absurd (Option.some_inj.mp hjlock) hij
  | confirmFails i =>
    simp only [stepFn] at h
    split at h
    case isFalse => exact Option.noConfusion h
    rename_i hcond
    rw [Option.some_inj] at h; subst h
    have hi : i < s.workerPcs.length := pcAtInRange s i (by simp [hcond.1])
    refine ⟨?_, ?_⟩ <;> intro j hj <;>
      simp only [pcAt] at hj <;> rw [getDSetSplit _ _ _ _ hi] at hj <;>
      split at hj
    · exact WorkerPc.noConfusion hj
    · rename_i hij
      have hjlock := hck j hj
      rw [hcond.2] at hjlock
      exact absurd (Option.some_inj.mp hjlock) hij
    · exact WorkerPc.noConfusion hj
    · rename_i hij
      have hjlock := (hbk j hj).1
      rw [hcond.2] at hjlock
      exact absurd (Option.some_inj.mp hjlock) hij
  | confirmSucceeds i =>
    simp only [stepFn] at h
    split at h
    case isFalse => exact Option.noConfusion h
    rename_i hcond
    rw [Option.some_inj] at h; subst h
    have hi : i < s.workerPcs.length := pcAtInRange s i (by simp [hcond.1])
    refine ⟨?_, ?_⟩ <;> intro j hj <;>
      simp only [pcAt] at hj <;> rw [getDSetSplit _ _ _ _ hi] at hj <;>
      split at hj
    · exact WorkerPc.noConfusion hj
    · rename_i hij
      have hjlock := hck j hj
      rw [hcond.2] at hjlock
      exact absurd (Option.some_inj.mp hjlock) hij
    · exact WorkerPc.noConfusion hj
    · rename_i hij
      have hjlock := (hbk j hj).1
      rw [hcond.2] at hjlock
      exact absurd (Option.some_inj.mp hjlock) hij
  | jobsExhausted i =>
    simp only [stepFn] at h
    split at h
    case isFalse => exact Option.noConfusion h
    rename_i hcond
    rw [Option.some_inj] at h; subst h
    have hi : i < s.workerPcs.length := pcAtInRange s i (by simp [hcond.1])
    refine ⟨?_, ?_⟩ <;> intro j hj <;>
      simp only [pcAt] at hj <;> rw [getDSetSplit _ _ _ _ hi] at hj <;>
      split at hj
    · exact WorkerPc.noConfusion hj
    · exact hck j hj
    · exact WorkerPc.noConfusion hj
    · exact hbk j hj
  | orchChecksStopSet =>
    simp only [stepFn] at h
    split at h
    case isFalse => exact Option.noConfusion h
    rw [Option.some_inj] at h; subst h
    exact ⟨hck, hbk⟩
  | orchChecksStopClear =>
    simp only [stepFn] at h
    split at h
    case isFalse => exact Option.noConfusion h
    rw [Option.some_inj] at h; subst h
    exact ⟨hck, hbk⟩
  | orchSends =>
    simp only [stepFn] at h
    split at h
    case isFalse => exact Option.noConfusion h
    rw [Option.some_inj] at h; subst h
    exact ⟨hck, hbk⟩

/-- Under the invariant, an event that issues a create or confirm request can
only fire while the stop channel is open. -/
theorem stepBookingCallNeedsOpenStop {s s2 : SysState} {e : Ev}
    (h : stepFn s e = some s2) (hinv : Inv s)
    (hb : isBookingCallEv e = true) : s.stopClosed = false := by
  obtain ⟨-, hbk⟩ := hinv
  cases e <;>
    first
      | exact Bool.noConfusion hb
      | (simp only [stepFn] at h; split at h <;>
          first
            | exact Option.noConfusion h
            | (rename_i hcond; exact (hbk _ hcond.1).2))

/-- Runs preserve the invariant. -/
theorem runPreservesInv {evs : List Ev} {s s2 : SysState}
    (h : runEvents s evs = some s2) (hinv : Inv s) : Inv s2 := by
  induction evs generalizing s with
  | nil => simp only [runEvents, Option.some_inj] at h; subst h; exact hinv
  | cons e rest ih =>
    simp only [runEvents] at h
    cases hstep : stepFn s e with
    | none => rw [hstep] at h; exact Option.noConfusion h
    | some s1 =>
      rw [hstep] at h
      exact ih h (stepPreservesInv hstep hinv)

/-- Runs never reopen the stop channel. -/
theorem runStopMono {evs : List Ev} {s s2 : SysState}
    (h : runEvents s evs = some s2) (hs : s.stopClosed = true) :
    s2.stopClosed = true := by
  induction evs generalizing s with
  | nil => simp only [runEvents, Option.some_inj] at h; subst h; exact hs
  | cons e rest ih =>
    simp only [runEvents] at h
    cases hstep : stepFn s e with
    | none => rw [hstep] at h; exact Option.noConfusion h
    | some s1 =>
      rw [hstep] at h
      refine ih h ?_
      rw [stepStopClosed hstep, hs]
      rfl

/-- Once the stop channel is closed, a run can contain no create or confirm
request at all, in particular no second confirm issuance; the stop channel
also stays closed. -/
theorem runAfterStopNoBookingCalls {evs : List Ev} {s s2 : SysState}
    (h : runEvents s evs = some s2) (hinv : Inv s) (hs : s.stopClosed = true) :
    (∀ e ∈ evs, isBookingCallEv e = false) ∧ s2.stopClosed = true := by
  induction evs generalizing s with
  | nil =>
    simp only [runEvents, Option.some_inj] at h; subst h
    exact ⟨by intro e he; exact absurd he (List.not_mem_nil e), hs⟩
  | cons e rest ih =>
    simp only [runEvents] at h
    cases hstep : stepFn s e with
    | none => rw [hstep] at h; exact Option.noConfusion h
    | some s1 =>
      rw [hstep] at h
      have hstop1 : s1.stopClosed = true := by
        rw [stepStopClosed hstep, hs]; rfl
      have hrest := ih h (stepPreservesInv hstep hinv) hstop1
      refine ⟨?_, hrest.2⟩
      intro e2 he2
      rcases List.mem_cons.mp he2 with he2 | he2
      · subst he2
        cases hbe : isBookingCallEv e2
        · rfl
        · exact absurd (stepBookingCallNeedsOpenStop hstep hinv hbe)
            (by rw [hs]; exact fun hc => Bool.noConfusion hc)
      · exact hrest.1 e2 he2

/-- The count of successful confirmations along a run from an
invariant-satisfying state: at most one more confirmation can ever happen
from an open-stop state, none from a closed-stop state, and the stop flag
afterwards reflects exactly whether a confirmation happened. -/
theorem runConfirmCount {evs : List Ev} {s s2 : SysState}
    (h : runEvents s evs = some s2) (hinv : Inv s) :
    (s.stopClosed = true → confirmCount evs = 0 ∧ s2.stopClosed = true) ∧
    (s.stopClosed = false → confirmCount evs ≤ 1 ∧
      (s2.stopClosed = true ↔ confirmCount evs = 1)) := by
  induction evs generalizing s with
  | nil =>
    simp only [runEvents, Option.some_inj] at h; subst h
    constructor
    · intro hs; exact ⟨rfl, hs⟩
    · intro hs
      refine ⟨Nat.zero_le 1, ?_⟩
      rw [hs]
      simp [confirmCount]
  | cons e rest ih =>
    simp only [runEvents] at h
    cases hstep : stepFn s e with
    | none => rw [hstep] at h; exact Option.noConfusion h
    | some s1 =>
      rw [hstep] at h
      have hinv1 := stepPreservesInv hstep hinv
      have ihrest := ih h hinv1
      constructor
      · intro hs
        have hnb : isBookingCallEv e = false := by
          cases hbe : isBookingCallEv e
          · rfl
          · exact absurd (stepBookingCallNeedsOpenStop hstep hinv hbe)
              (by rw [hs]; exact fun hc => Bool.noConfusion hc)
        have hnc : isConfirmSuccessEv e = false := by
          cases e <;> first
            | rfl
            | exact absurd hnb (by simp [isBookingCallEv])
        have hstop1 : s1.stopClosed = true := by
          rw [stepStopClosed hstep, hs]; rfl
        have hrest := ihrest.1 hstop1
        refine ⟨?_, hrest.2⟩
        simp [confirmCount, List.filter, hnc] at hrest ⊢
        exact hrest.1
      · intro hs
        cases hc : isConfirmSuccessEv e with
        | true =>
          have hstop1 : s1.stopClosed = true := by
            rw [stepStopClosed hstep, hc]
            exact Bool.or_true _
          have hrest := ihrest.1 hstop1
          have hcount : confirmCount (e :: rest) = 1 := by
            simp [confirmCount, List.filter, hc] at hrest ⊢
            exact hrest.1
          rw [hcount]
          exact ⟨Nat.le_refl 1, by simp [hrest.2]⟩
        | false =>
          have hstop1 : s1.stopClosed = false := by
            rw [stepStopClosed hstep, hs, hc]
            rfl
          have hrest := ihrest.2 hstop1
          have hcount : confirmCount (e :: rest) = confirmCount rest := by
            simp [confirmCount, List.filter, hc]
          rw [hcount]
          exact hrest

/-- The start state satisfies the invariant. -/
theorem initStateInv (n : Nat) : Inv (initState n) := by
  constructor <;> intro i hi <;>
    rcases listGetDReplicate n i WorkerPc.polling WorkerPc.terminated with
      hr | hr <;>
    simp only [initState, pcAt] at hi <;> rw [hr] at hi <;>
    exact WorkerPc.noConfusion hi

/-- After the orchestrator has closed the jobs channel and left its loop, no
run contains another enqueue, and the channel stays closed. -/
theorem runOrchDoneNoSends {evs : List Ev} {s s2 : SysState}
    (h : runEvents s evs = some s2) (ho : s.orchPc = .done)
    (hj : s.jobsClosed = true) :
    (∀ e ∈ evs, isEnqueueEv e = false) ∧ s2.jobsClosed = true := by
  induction evs generalizing s with
  | nil =>
    simp only [runEvents, Option.some_inj] at h; subst h
    exact ⟨by intro e he; exact absurd he (List.not_mem_nil e), hj⟩
  | cons e rest ih =>
    simp only [runEvents] at h
    cases hstep : stepFn s e with
    | none => rw [hstep] at h; exact Option.noConfusion h
    | some s1 =>
      rw [hstep] at h
      have hdone := stepOrchDone hstep ho
      have hjob1 := stepJobsClosed hstep hj
      have hrest := ih h hdone.1 hjob1
      refine ⟨?_, hrest.2⟩
      intro e2 he2
      rcases List.mem_cons.mp he2 with he2 | he2
      · subst he2; exact hdone.2
      · exact hrest.1 e2 he2

/-- C1: the stop signal is a process-wide one-shot flag: in every run from the
startup state the stop channel is closed exactly when one successful
confirmation happened, at most one confirmation ever succeeds (so the channel
is never closed twice), and once closed it stays closed with no further
confirm request being issued. -/
theorem claim1StopSignalOneShot (n : Nat) (evs : List Ev) (s : SysState)
    (h : runEvents (initState n) evs = some s) :
    confirmCount evs ≤ 1 ∧
    (s.stopClosed = true ↔ confirmCount evs = 1) ∧
    (∀ evs2 s2, runEvents s evs2 = some s2 → s.stopClosed = true →
      s2.stopClosed = true ∧ ∀ e ∈ evs2, isConfirmIssueEv e = false) := by
  have hinv := runPreservesInv h (initStateInv n)
  have hcc := (runConfirmCount h (initStateInv n)).2 rfl
  refine ⟨hcc.1, hcc.2, ?_⟩
  intro evs2 s2 h2 hs
  have hb := runAfterStopNoBookingCalls h2 hinv hs
  refine ⟨hb.2, ?_⟩
  intro e he
  have hbe := hb.1 e he
  cases e <;> first
    | rfl
    | exact Bool.noConfusion hbe

/-- C1 witness: the theorem applied to the concrete two-worker run in which
worker 0 books successfully. -/
theorem claim1StopSignalOneShotWitness :
    confirmCount c1DemoEvs ≤ 1 ∧
    (c1DemoFinal.stopClosed = true ↔ confirmCount c1DemoEvs = 1) ∧
    (∀ evs2 s2, runEvents c1DemoFinal evs2 = some s2 →
      c1DemoFinal.stopClosed = true →
      s2.stopClosed = true ∧ ∀ e ∈ evs2, isConfirmIssueEv e = false) :=
  claim1StopSignalOneShot 2 c1DemoEvs c1DemoFinal (by decide)

/-- C8: once the stop signal is set in a reachable state, a worker holding the
lock at the mandatory re-check can only release it and terminate (the
transition into the booking sequence is disabled), no later step of any run
issues a create or confirm request, a worker dequeuing a location can only
terminate without making remote calls, and the orchestrator at the top of its
loop can only close the jobs channel and stop, after which no enqueue ever
happens again. -/
theorem claim8StopObservedEverywhere (n : Nat) (evs : List Ev) (s : SysState)
    (h : runEvents (initState n) evs = some s) (hs : s.stopClosed = true) :
    (∀ i, pcAt s i = .checkingStop →
      stepFn s (.recheckClear i) = none ∧
      stepFn s (.recheckSeesStop i) =
        some { s with
                 lockHolder := none
                 workerPcs := s.workerPcs.set i .terminated }) ∧
    (∀ evs2 s2, runEvents s evs2 = some s2 →
      ∀ e ∈ evs2, isBookingCallEv e = false) ∧
    (∀ i, stepFn s (.dequeueProceeds i) = none ∧
      (pcAt s i = .polling → stepFn s (.dequeueSeesStop i) =
        some { s with workerPcs := s.workerPcs.set i .terminated })) ∧
    (s.orchPc = .atTop →
      stepFn s .orchChecksStopClear = none ∧
      stepFn s .orchChecksStopSet =
        some { s with jobsClosed := true, orchPc := .done } ∧
      (∀ evs2 s2,
        runEvents ({ s with jobsClosed := true, orchPc := .done } : SysState)
          evs2 = some s2 →
        (∀ e ∈ evs2, isEnqueueEv e = false) ∧ s2.jobsClosed = true)) := by
  have hinv := runPreservesInv h (initStateInv n)
  refine ⟨?_, ?_, ?_, ?_⟩
  · intro i hpc
    constructor
    · simp only [stepFn]
      rw [if_neg]
      intro hcond
      rw [hs] at hcond
      exact Bool.noConfusion hcond.2.2
    · simp only [stepFn]
      rw [if_pos ⟨hpc, hinv.1 i hpc, hs⟩]
  · intro evs2 s2 h2
    exact (runAfterStopNoBookingCalls h2 hinv hs).1
  · intro i
    constructor
    · simp only [stepFn]
      rw [if_neg]
      intro hcond
      rw [hs] at hcond
      exact Bool.noConfusion hcond.2
    · intro hpc
      simp only [stepFn]
      rw [if_pos ⟨hpc, hs⟩]
  · intro ho
    refine ⟨?_, ?_, ?_⟩
    · simp only [stepFn]
      rw [if_neg]
      intro hcond
      rw [hs] at hcond
      exact Bool.noConfusion hcond.2
    · simp only [stepFn]
      rw [if_pos ⟨ho, hs⟩]
    · intro evs2 s2 h2
      exact runOrchDoneNoSends h2 rfl rfl

/-- C8 witness: the theorem applied to the concrete two-worker run in which
worker 1 acquires the lock after worker 0 already closed the stop channel. -/
theorem claim8StopObservedEverywhereWitness :
    (∀ i, pcAt c8DemoFinal i = .checkingStop →
      stepFn c8DemoFinal (.recheckClear i) = none ∧
      stepFn c8DemoFinal (.recheckSeesStop i) =
        some { c8DemoFinal with
                 lockHolder := none
                 workerPcs := c8DemoFinal.workerPcs.set i .terminated }) ∧
    (∀ evs2 s2, runEvents c8DemoFinal evs2 = some s2 →
      ∀ e ∈ evs2, isBookingCallEv e = false) ∧
    (∀ i, stepFn c8DemoFinal (.dequeueProceeds i) = none ∧
      (pcAt c8DemoFinal i = .polling →
        stepFn c8DemoFinal (.dequeueSeesStop i) =
          some { c8DemoFinal with
                   workerPcs := c8DemoFinal.workerPcs.set i .terminated })) ∧
    (c8DemoFinal.orchPc = .atTop →
      stepFn c8DemoFinal .orchChecksStopClear = none ∧
      stepFn c8DemoFinal .orchChecksStopSet =
        some { c8DemoFinal with jobsClosed := true, orchPc := .done } ∧
      (∀ evs2 s2,
        runEvents ({ c8DemoFinal with jobsClosed := true, orchPc := .done } :
          SysState) evs2 = some s2 →
        (∀ e ∈ evs2, isEnqueueEv e = false) ∧ s2.jobsClosed = true)) :=
  claim8StopObservedEverywhere 2 c8DemoEvs c8DemoFinal (by decide) (by decide)

theorem collectVisitMotiveIdsSeeded (ms : List BookingVisitMotive) (x : Int) :
    (ms.filter (fun m => m.name == PfizerBiontechVaccineVisitMotiveName)
        = [] →
      collectVisitMotiveIds ms [x] = .ok [x]) ∧
    (ms.filter (fun m => m.name == PfizerBiontechVaccineVisitMotiveName)
        ≠ [] →
      ∃ e, collectVisitMotiveIds ms [x] = .error e) := by
  induction ms with
  | nil =>
    exact ⟨fun _ => rfl, fun hne => absurd rfl hne⟩
  | cons m rest ih =>
    by_cases hm : (m.name == PfizerBiontechVaccineVisitMotiveName) = true
    · constructor
      · intro hfil
        rw [List.filter_cons_of_pos (by exact hm)] at hfil
        exact List.noConfusion hfil
      · intro _
        refine ⟨"unhandled case: vaccination center has multiple choices for Pfizer-BioNTech 1st injection", ?_⟩
        simp [collectVisitMotiveIds, bne, hm]
    · have hm2 : (m.name == PfizerBiontechVaccineVisitMotiveName) = false :=
        Bool.eq_false_iff.mpr hm
      constructor
      · intro hfil
        rw [List.filter_cons_of_neg (by exact Bool.eq_false_iff.mp hm2)] at hfil
        simp only [collectVisitMotiveIds, bne, hm2]
        exact ih.1 hfil
      · intro hfil
        rw [List.filter_cons_of_neg (by exact Bool.eq_false_iff.mp hm2)] at hfil
        simp only [collectVisitMotiveIds, bne, hm2]
        exact ih.2 hfil

theorem collectVisitMotiveIdsEmpty (ms : List BookingVisitMotive)
    (h : ms.filter (fun m => m.name == PfizerBiontechVaccineVisitMotiveName)
      = []) :
    collectVisitMotiveIds ms [] = .ok [] := by
  induction ms with
  | nil => rfl
  | cons m rest ih =>
    by_cases hm : (m.name == PfizerBiontechVaccineVisitMotiveName) = true
    · rw [List.filter_cons_of_pos (by exact hm)] at h
      exact List.noConfusion h
    · have hm2 : (m.name == PfizerBiontechVaccineVisitMotiveName) = false :=
        Bool.eq_false_iff.mpr hm
      rw [List.filter_cons_of_neg (by exact Bool.eq_false_iff.mp hm2)] at h
      simp only [collectVisitMotiveIds, bne, hm2]
      exact ih h

theorem collectVisitMotiveIdsSingle (ms : List BookingVisitMotive)
    (m : BookingVisitMotive)
    (h : ms.filter (fun mm => mm.name == PfizerBiontechVaccineVisitMotiveName)
      = [m]) :
    collectVisitMotiveIds ms [] = .ok [m.id] := by
  induction ms with
  | nil => exact List.noConfusion h
  | cons m0 rest ih =>
    by_cases hm : (m0.name == PfizerBiontechVaccineVisitMotiveName) = true
    · rw [List.filter_cons_of_pos (by exact hm)] at h
      rw [List.cons_eq_cons] at h
      obtain ⟨hm0, hrest⟩ := h
      subst hm0
      simp only [collectVisitMotiveIds, bne, hm]
      have := (collectVisitMotiveIdsSeeded rest m0.id).1 hrest
      simpa using this
    · have hm2 : (m0.name == PfizerBiontechVaccineVisitMotiveName) = false :=
        Bool.eq_false_iff.mpr hm
      rw [List.filter_cons_of_neg (by exact Bool.eq_false_iff.mp hm2)] at h
      simp only [collectVisitMotiveIds, bne, hm2]
      exact ih h

theorem collectVisitMotiveIdsMulti (ms : List BookingVisitMotive)
    (m1 m2 : BookingVisitMotive) (tl : List BookingVisitMotive)
    (h : ms.filter (fun mm => mm.name == PfizerBiontechVaccineVisitMotiveName)
      = m1 :: m2 :: tl) :
    ∃ e, collectVisitMotiveIds ms [] = .error e := by
  induction ms with
  | nil => exact List.noConfusion h
  | cons m0 rest ih =>
    by_cases hm : (m0.name == PfizerBiontechVaccineVisitMotiveName) = true
    · rw [List.filter_cons_of_pos (by exact hm)] at h
      rw [List.cons_eq_cons] at h
      obtain ⟨hm0, hrest⟩ := h
      simp only [collectVisitMotiveIds, bne, hm]
      have hne : rest.filter
          (fun mm => mm.name == PfizerBiontechVaccineVisitMotiveName) ≠ [] :=
        by rw [hrest]; exact fun hc => List.noConfusion hc
      have := (collectVisitMotiveIdsSeeded rest m0.id).2 hne
      simpa using this
    · have hm2 : (m0.name == PfizerBiontechVaccineVisitMotiveName) = false :=
        Bool.eq_false_iff.mpr hm
      rw [List.filter_cons_of_neg (by exact Bool.eq_false_iff.mp hm2)] at h
      simp only [collectVisitMotiveIds, bne, hm2]
      exact ih h

theorem collectAgendaAndPracticeIdsChar (as : List BookingAgenda)
    (motiveId : Int) (agAcc prAcc : List Int) :
    collectAgendaAndPracticeIds as motiveId agAcc prAcc =
      (agAcc ++ (as.filter (agendaEligible motiveId)).map (fun a => a.id),
       dedupAppendFrom prAcc
         ((as.filter (agendaEligible motiveId)).map (fun a => a.practiceId)))
    := by
  induction as generalizing agAcc prAcc with
  | nil => simp [collectAgendaAndPracticeIds, dedupAppendFrom]
  | cons a rest ih =>
    by_cases hcont : (a.visitMotiveIds.contains motiveId) = true
    · by_cases hdis : (a.bookingDisabled || a.bookingTemporaryDisabled) = true
      · have helig : agendaEligible motiveId a = false := by
          simp [agendaEligible, hcont, hdis]
        rw [List.filter_cons_of_neg (by exact Bool.eq_false_iff.mp helig)]
        simp only [collectAgendaAndPracticeIds, IntSliceContains, hcont, hdis]
        simpa using ih agAcc prAcc
      · have hdis2 : (a.bookingDisabled || a.bookingTemporaryDisabled)
            = false := Bool.eq_false_iff.mpr hdis
        have helig : agendaEligible motiveId a = true := by
          unfold agendaEligible
          rw [hcont, hdis2]
          rfl
        rw [List.filter_cons_of_pos (by exact helig)]
        simp only [collectAgendaAndPracticeIds, IntSliceContains, hcont, hdis2]
        rw [ih (agAcc ++ [a.id])]
        refine Prod.ext ?_ ?_
        · simp
        · simp only [List.map_cons, dedupAppendFrom, List.foldl_cons]
          by_cases hpr : (prAcc.contains a.practiceId) = true
          · simp [hpr]
          · simp [Bool.eq_false_iff.mpr hpr]
    · have hcont2 : (a.visitMotiveIds.contains motiveId) = false :=
        Bool.eq_false_iff.mpr hcont
      have helig : agendaEligible motiveId a = false := by
        unfold agendaEligible
        rw [hcont2]
        rfl
      rw [List.filter_cons_of_neg (by exact Bool.eq_false_iff.mp helig)]
      simp only [collectAgendaAndPracticeIds, IntSliceContains, hcont2]
      simpa using ih agAcc prAcc

/-- On success, settings resolution hands back the booking response's own
token and profile id. -/
theorem getVaccinationSettingsOfBookingFields {br : BookingResponse}
    {vs : VaccinationSettings}
    (h : getVaccinationSettingsOfBooking br = .ok vs) :
    vs.csrfToken = br.csrfToken ∧ vs.profileId = br.data.profile.id := by
  unfold getVaccinationSettingsOfBooking at h
  split at h
  · exact Except.noConfusion h
  · split at h
    · exact Except.noConfusion h
    · dsimp only at h
      split at h
      · exact Except.noConfusion h
      · rw [Except.ok.injEq] at h
        subst h
        exact ⟨rfl, rfl⟩

/-- Settings resolution agrees (up to error message text) with the spec-side
resolver; helper for the C6 theorem. -/
theorem settingsResolverAgreesSpec (resp : BookingResponse) :
    sameExceptMessage (getVaccinationSettingsOfBooking resp)
      (specResolveSettings resp) := by
  rcases hcase : motiveMatches resp with - | ⟨m, rest⟩
  · have hcol := collectVisitMotiveIdsEmpty resp.data.visitMotives hcase
    unfold getVaccinationSettingsOfBooking specResolveSettings
    rw [hcase]
    simp [hcol, sameExceptMessage]
  · rcases rest with - | ⟨m2, rest2⟩
    · have hcol := collectVisitMotiveIdsSingle resp.data.visitMotives m hcase
      have hagchar :=
        collectAgendaAndPracticeIdsChar resp.data.agendas m.id [] []
      unfold getVaccinationSettingsOfBooking specResolveSettings
      rw [hcase]
      simp only [hcol, hagchar]
      rcases helig : resp.data.agendas.filter (agendaEligible m.id) with
          - | ⟨a, as2⟩
      · simp [sameExceptMessage, helig]
      · simp [sameExceptMessage, helig, dedupFirstSeen, dedupAppendFrom]
    · obtain ⟨e, he⟩ :=
        collectVisitMotiveIdsMulti resp.data.visitMotives m m2 rest2 hcase
      unfold getVaccinationSettingsOfBooking specResolveSettings
      rw [hcase]
      simp [he, sameExceptMessage]

/-- The literal trace of a fully successful cycle, used to evaluate the
worker symbolically on the happy path. -/
theorem happyCycleEq
    (vaccinationCenter tok0 : String) (tomorrow : GoTime)
    (parse : String → Option GoTime) (br : BookingResponse)
    (vs : VaccinationSettings) (a1 : AvailabilitiesResponse)
    (av0 : Availability) (avRest : List Availability)
    (slot0 : AvailabilitySlot) (slRest : List AvailabilitySlot)
    (st0 st1 : AvailabilitySlotStep) (stRest : List AvailabilitySlotStep)
    (t1 t2 : GoTime) (c1r : CreateAppointmentResponse)
    (a2 : AvailabilitiesResponse) (bv0 : Availability)
    (bvRest : List Availability) (s2 : AvailabilitySlot)
    (s2Rest : List AvailabilitySlot) (c2r : CreateAppointmentResponse)
    (pr : MasterPatientsResponse) (p0 : MasterPatient)
    (pRest : List MasterPatient) (cfr : ConfirmAppointmentResponse)
    (hvs : getVaccinationSettingsOfBooking br = .ok vs)
    (ha1 : (a1.total == 0) = false)
    (hav : a1.availabilities = av0 :: avRest)
    (hsl : av0.slots = slot0 :: slRest)
    (hst : slot0.steps = st0 :: st1 :: stRest)
    (hp1 : parse st1.startDate = some t1)
    (hp2 : parse slot0.startDate = some t2)
    (ha2 : (a2.total == 0) = false)
    (hbv : a2.availabilities = bv0 :: bvRest)
    (hs2 : bv0.slots = s2 :: s2Rest)
    (hpat : pr.masterPatients = p0 :: pRest) :
    tryBookVaccineCycle (happyEnv tomorrow parse br a1 c1r a2 c2r pr cfr)
        vaccinationCenter tok0 =
      { outcome := .booked
        token := pr.csrfToken
        calls :=
          [{ kind := .booking vaccinationCenter, presented := tok0
             returned := some br.csrfToken },
           { kind := .availabilities tomorrow none vs.visitMotiveIds
               vs.agendaIds vs.practiceIds 1
             presented := vs.csrfToken, returned := some a1.csrfToken },
           { kind := .createAppointment slot0.startDate "" vs.visitMotiveIds
               vs.agendaIds vs.practiceIds vs.profileId
             presented := a1.csrfToken, returned := some c1r.csrfToken },
           { kind := .availabilities t1 (some t2) vs.visitMotiveIds
               vs.agendaIds vs.practiceIds 4
             presented := c1r.csrfToken, returned := some a2.csrfToken },
           { kind := .createAppointment slot0.startDate s2.startDate
               vs.visitMotiveIds vs.agendaIds vs.practiceIds vs.profileId
             presented := a2.csrfToken, returned := some c2r.csrfToken },
           { kind := .masterPatients, presented := c2r.csrfToken
             returned := some pr.csrfToken },
           { kind := .confirmAppointment c1r.id slot0.startDate p0
             presented := pr.csrfToken, returned := some cfr.csrfToken }]
        lockHeldAtExit := false } := by
  simp only [tryBookVaccineCycle, happyEnv, getVaccinationSettings, hvs, ha1,
    hav, hsl, hst, hp1, hp2, ha2, hbv, hs2, hpat, returnedToken,
    Bool.false_eq_true, if_false, List.cons_append, List.nil_append]

/-- C5: on a fully successful cycle the worker issues exactly one create call
with an empty second-slot field, then one create call carrying the follow-up
slot, then one confirm call, in that order; the confirm call references the
first create response's appointment id, the first slot's datetime and the
first returned patient; and every call of the cycle presents the token
returned by the call just before it, starting from the entry token. -/
theorem claim5RoundTripSequence
    (vaccinationCenter tok0 : String) (tomorrow : GoTime)
    (parse : String → Option GoTime) (br : BookingResponse)
    (vs : VaccinationSettings) (a1 : AvailabilitiesResponse)
    (av0 : Availability) (avRest : List Availability)
    (slot0 : AvailabilitySlot) (slRest : List AvailabilitySlot)
    (st0 st1 : AvailabilitySlotStep) (stRest : List AvailabilitySlotStep)
    (t1 t2 : GoTime) (c1r : CreateAppointmentResponse)
    (a2 : AvailabilitiesResponse) (bv0 : Availability)
    (bvRest : List Availability) (s2 : AvailabilitySlot)
    (s2Rest : List AvailabilitySlot) (c2r : CreateAppointmentResponse)
    (pr : MasterPatientsResponse) (p0 : MasterPatient)
    (pRest : List MasterPatient) (cfr : ConfirmAppointmentResponse)
    (hvs : getVaccinationSettingsOfBooking br = .ok vs)
    (ha1 : (a1.total == 0) = false)
    (hav : a1.availabilities = av0 :: avRest)
    (hsl : av0.slots = slot0 :: slRest)
    (hst : slot0.steps = st0 :: st1 :: stRest)
    (hp1 : parse st1.startDate = some t1)
    (hp2 : parse slot0.startDate = some t2)
    (ha2 : (a2.total == 0) = false)
    (hbv : a2.availabilities = bv0 :: bvRest)
    (hs2 : bv0.slots = s2 :: s2Rest)
    (hs2ne : s2.startDate ≠ "")
    (hpat : pr.masterPatients = p0 :: pRest) :
    (tryBookVaccineCycle (happyEnv tomorrow parse br a1 c1r a2 c2r pr cfr)
        vaccinationCenter tok0).calls.filter isCreateOrConfirm =
      [{ kind := .createAppointment slot0.startDate "" vs.visitMotiveIds
           vs.agendaIds vs.practiceIds vs.profileId
         presented := a1.csrfToken, returned := some c1r.csrfToken },
       { kind := .createAppointment slot0.startDate s2.startDate
           vs.visitMotiveIds vs.agendaIds vs.practiceIds vs.profileId
         presented := a2.csrfToken, returned := some c2r.csrfToken },
       { kind := .confirmAppointment c1r.id slot0.startDate p0
         presented := pr.csrfToken, returned := some cfr.csrfToken }] ∧
    s2.startDate ≠ "" ∧
    chainedFrom tok0
      (tryBookVaccineCycle (happyEnv tomorrow parse br a1 c1r a2 c2r pr cfr)
        vaccinationCenter tok0).calls ∧
    (tryBookVaccineCycle (happyEnv tomorrow parse br a1 c1r a2 c2r pr cfr)
        vaccinationCenter tok0).outcome = .booked := by
  have hr := happyCycleEq vaccinationCenter tok0 tomorrow parse br vs a1 av0
    avRest slot0 slRest st0 st1 stRest t1 t2 c1r a2 bv0 bvRest s2 s2Rest c2r
    pr p0 pRest cfr hvs ha1 hav hsl hst hp1 hp2 ha2 hbv hs2 hpat
  rw [hr]
  have hvt := (getVaccinationSettingsOfBookingFields hvs).1
  refine ⟨?_, hs2ne, ?_, rfl⟩
  · simp [isCreateOrConfirm, List.filter]
  · simp [chainedFrom, hvt]

/-- Exhaustive facts about one worker cycle, by case analysis over every
oracle outcome: the trace is token-chained; a cycle that goes back to Idle has
released the lock; a crash happens only while holding the lock; a well-shaped
oracle never crashes; outside the booked case and the settings-drop case the
exit token is the token returned by the last successful call; and in the
settings-drop case the exit token is the entry token although the booking
fetch returned a fresh one. -/
theorem cycleCaseFacts (env : CycleEnv) (c tok : String) :
    chainedFrom tok (tryBookVaccineCycle env c tok).calls ∧
    ((tryBookVaccineCycle env c tok).outcome = .toIdle →
      (tryBookVaccineCycle env c tok).lockHeldAtExit = false) ∧
    ((tryBookVaccineCycle env c tok).outcome = .crashed →
      (tryBookVaccineCycle env c tok).lockHeldAtExit = true) ∧
    (wellShapedEnv env → (tryBookVaccineCycle env c tok).outcome ≠ .crashed) ∧
    (¬ settingsDropCase env →
      (tryBookVaccineCycle env c tok).outcome ≠ .booked →
      (tryBookVaccineCycle env c tok).token =
        lastReturnedFrom tok (tryBookVaccineCycle env c tok).calls) ∧
    (∀ br2 e2, env.bookingRes = .ok br2 →
      getVaccinationSettingsOfBooking br2 = .error e2 →
      env.stopAtDequeue = false →
      (tryBookVaccineCycle env c tok).token = tok ∧
      (tryBookVaccineCycle env c tok).calls =
        [{ kind := .booking c, presented := tok
           returned := some br2.csrfToken }]) := by
  obtain ⟨sd, sl, tm, pf, bres, a1res, c1res, a2res, c2res, pres, cfres⟩ := env
  cases sd with
  | true =>
    refine ⟨trivial, ?_, ?_, ?_, ?_, ?_⟩
    · intro h; exact CycleOutcome.noConfusion h
    · intro h; exact CycleOutcome.noConfusion h
    · intro _ h; exact CycleOutcome.noConfusion h
    · intro _ _; rfl
    · intro br2 e2 _ _ hsd; exact Bool.noConfusion hsd
  | false =>
  cases bres with
  | error e1 =>
    refine ⟨⟨rfl, trivial⟩, ?_, ?_, ?_, ?_, ?_⟩
    · intro _; rfl
    · intro h; exact CycleOutcome.noConfusion h
    · intro _ h; exact CycleOutcome.noConfusion h
    · intro _ _; rfl
    · intro br2 e2 hb2 _ _; exact Except.noConfusion hb2
  | ok br =>
  have hb6 : ∀ (br2 : BookingResponse),
      (Except.ok br : Except String BookingResponse) = Except.ok br2 →
        br = br2 := by
    intro br2 hb2; injection hb2
  cases hvs : getVaccinationSettingsOfBooking br with
  | error e1 =>
    simp only [tryBookVaccineCycle, getVaccinationSettings, hvs, returnedToken]
    refine ⟨⟨rfl, trivial⟩, ?_, ?_, ?_, ?_, ?_⟩
    · intro _; rfl
    · intro h; exact CycleOutcome.noConfusion h
    · intro _ h; exact CycleOutcome.noConfusion h
    · intro hdrop _
      exact absurd ⟨br, rfl, e1, hvs⟩ hdrop
    · intro br2 e2 hb2 _ _
      have := hb6 br2 hb2
      subst this
      exact ⟨rfl, rfl⟩
  | ok vs =>
  have hvt : vs.csrfToken = br.csrfToken :=
    (getVaccinationSettingsOfBookingFields hvs).1
  have hb7 : ∀ (br2 : BookingResponse) (e2 : String),
      (Except.ok br : Except String BookingResponse) = Except.ok br2 →
      getVaccinationSettingsOfBooking br2 = Except.error e2 → False := by
    intro br2 e2 hb2 hvs2
    have := hb6 br2 hb2
    subst this
    rw [hvs] at hvs2
    exact Except.noConfusion hvs2
  cases a1res with
  | error e1 =>
    simp only [tryBookVaccineCycle, getVaccinationSettings, hvs, returnedToken]
    refine ⟨⟨rfl, ?_, trivial⟩, ?_, ?_, ?_, ?_, ?_⟩
    · simp [hvt]
    · intro _; rfl
    · intro h; exact CycleOutcome.noConfusion h
    · intro _ h; exact CycleOutcome.noConfusion h
    · intro _ _; simp [lastReturnedFrom, hvt]
    · intro br2 e2 hb2 hvs2 _; exact absurd (hb7 br2 e2 hb2 hvs2) not_false
  | ok a1 =>
  obtain ⟨a1avs, a1tot, a1tok⟩ := a1
  by_cases ht1 : a1tot = 0
  · subst ht1
    simp only [tryBookVaccineCycle, getVaccinationSettings, hvs, returnedToken,
      beq_self_eq_true, if_true]
    refine ⟨⟨rfl, ?_, trivial⟩, ?_, ?_, ?_, ?_, ?_⟩
    · simp [hvt]
    · intro _; rfl
    · intro h; exact CycleOutcome.noConfusion h
    · intro _ h; exact CycleOutcome.noConfusion h
    · intro _ _; simp [lastReturnedFrom, hvt]
    · intro br2 e2 hb2 hvs2 _; exact absurd (hb7 br2 e2 hb2 hvs2) not_false
  · have ht1f : (a1tot == 0) = false := by
      simpa using ht1
    cases sl with
    | true =>
      simp only [tryBookVaccineCycle, getVaccinationSettings, hvs,
        returnedToken, ht1f, if_false, if_true]
      refine ⟨⟨rfl, ?_, trivial⟩, ?_, ?_, ?_, ?_, ?_⟩
      · simp [hvt]
      · intro h; exact CycleOutcome.noConfusion h
      · intro h; exact CycleOutcome.noConfusion h
      · intro _ h; exact CycleOutcome.noConfusion h
      · intro _ _; simp [lastReturnedFrom, hvt]
      · intro br2 e2 hb2 hvs2 _; exact absurd (hb7 br2 e2 hb2 hvs2) not_false
    | false =>
    cases a1avs with
    | nil =>
      simp only [tryBookVaccineCycle, getVaccinationSettings, hvs,
        returnedToken, ht1f, if_false]
      refine ⟨⟨rfl, ?_, trivial⟩, ?_, ?_, ?_, ?_, ?_⟩
      · simp [hvt]
      · intro h; exact CycleOutcome.noConfusion h
      · intro _; rfl
      · intro hws h
        obtain ⟨hw1, -, -⟩ := hws
        obtain ⟨av, avs, slx, sls, h1, -, -⟩ := hw1 ⟨[], a1tot, a1tok⟩ rfl ht1
        exact List.noConfusion h1
      · intro _ _; simp [lastReturnedFrom, hvt]
      · intro br2 e2 hb2 hvs2 _; exact absurd (hb7 br2 e2 hb2 hvs2) not_false
    | cons av0 avRest =>
    obtain ⟨avdate, avslots⟩ := av0
    cases avslots with
    | nil =>
      simp only [tryBookVaccineCycle, getVaccinationSettings, hvs,
        returnedToken, ht1f, if_false]
      refine ⟨⟨rfl, ?_, trivial⟩, ?_, ?_, ?_, ?_, ?_⟩
      · simp [hvt]
      · intro h; exact CycleOutcome.noConfusion h
      · intro _; rfl
      · intro hws h
        obtain ⟨hw1, -, -⟩ := hws
        obtain ⟨av, avs, slx, sls, h1, h2, -⟩ :=
          hw1 ⟨⟨avdate, []⟩ :: avRest, a1tot, a1tok⟩ rfl ht1
        rw [List.cons_eq_cons] at h1
        obtain ⟨h1a, -⟩ := h1
        rw [← h1a] at h2
        exact List.noConfusion h2
      · intro _ _; simp [lastReturnedFrom, hvt]
      · intro br2 e2 hb2 hvs2 _; exact absurd (hb7 br2 e2 hb2 hvs2) not_false
    | cons slot0 slRest =>
    obtain ⟨sdate, ssteps⟩ := slot0
    cases c1res with
    | error e1 =>
      simp only [tryBookVaccineCycle, getVaccinationSettings, hvs,
        returnedToken, ht1f, if_false]
      refine ⟨⟨rfl, ?_, ?_, trivial⟩, ?_, ?_, ?_, ?_, ?_⟩
      · simp [hvt]
      · simp
      · intro _; rfl
      · intro h; exact CycleOutcome.noConfusion h
      · intro _ h; exact CycleOutcome.noConfusion h
      · intro _ _; simp [lastReturnedFrom, hvt]
      · intro br2 e2 hb2 hvs2 _; exact absurd (hb7 br2 e2 hb2 hvs2) not_false
    | ok c1r =>
    cases ssteps with
    | nil =>
      simp only [tryBookVaccineCycle, getVaccinationSettings, hvs,
        returnedToken, ht1f, if_false]
      refine ⟨⟨rfl, ?_, ?_, trivial⟩, ?_, ?_, ?_, ?_, ?_⟩
      · simp [hvt]
      · simp
      · intro h; exact CycleOutcome.noConfusion h
      · intro _; rfl
      · intro hws h
        obtain ⟨hw1, -, -⟩ := hws
        obtain ⟨av, avs, slx, sls, h1, h2, h3⟩ :=
          hw1 ⟨⟨avdate, ⟨sdate, []⟩ :: slRest⟩ :: avRest, a1tot, a1tok⟩ rfl ht1
        obtain ⟨u, v, w, hw⟩ := h3 rfl
        rw [List.cons_eq_cons] at h1
        obtain ⟨h1a, -⟩ := h1
        rw [← h1a] at h2
        rw [List.cons_eq_cons] at h2
        obtain ⟨h2a, -⟩ := h2
        rw [← h2a] at hw
        exact List.noConfusion hw
      · intro _ _; simp [lastReturnedFrom, hvt]
      · intro br2 e2 hb2 hvs2 _; exact absurd (hb7 br2 e2 hb2 hvs2) not_false
    | cons st0 ssteps1 =>
    cases ssteps1 with
    | nil =>
      simp only [tryBookVaccineCycle, getVaccinationSettings, hvs,
        returnedToken, ht1f, if_false]
      refine ⟨⟨rfl, ?_, ?_, trivial⟩, ?_, ?_, ?_, ?_, ?_⟩
      · simp [hvt]
      · simp
      · intro h; exact CycleOutcome.noConfusion h
      · intro _; rfl
      · intro hws h
        obtain ⟨hw1, -, -⟩ := hws
        obtain ⟨av, avs, slx, sls, h1, h2, h3⟩ :=
          hw1 ⟨⟨avdate, ⟨sdate, [st0]⟩ :: slRest⟩ :: avRest, a1tot, a1tok⟩
            rfl ht1
        obtain ⟨u, v, w, hw⟩ := h3 rfl
        rw [List.cons_eq_cons] at h1
        obtain ⟨h1a, -⟩ := h1
        rw [← h1a] at h2
        rw [List.cons_eq_cons] at h2
        obtain ⟨h2a, -⟩ := h2
        rw [← h2a] at hw
        rw [List.cons_eq_cons] at hw
        obtain ⟨-, hw⟩ := hw
        exact List.noConfusion hw
      · intro _ _; simp [lastReturnedFrom, hvt]
      · intro br2 e2 hb2 hvs2 _; exact absurd (hb7 br2 e2 hb2 hvs2) not_false
    | cons st1 stRest =>
    cases hp1 : pf st1.startDate with
    | none =>
      simp only [tryBookVaccineCycle, getVaccinationSettings, hvs,
        returnedToken, ht1f, if_false, hp1]
      refine ⟨⟨rfl, ?_, ?_, trivial⟩, ?_, ?_, ?_, ?_, ?_⟩
      · simp [hvt]
      · simp
      · intro _; rfl
      · intro h; exact CycleOutcome.noConfusion h
      · intro _ h; exact CycleOutcome.noConfusion h
      · intro _ _; simp [lastReturnedFrom, hvt]
      · intro br2 e2 hb2 hvs2 _; exact absurd (hb7 br2 e2 hb2 hvs2) not_false
    | some t1 =>
    cases hp2 : pf sdate with
    | none =>
      simp only [tryBookVaccineCycle, getVaccinationSettings, hvs,
        returnedToken, ht1f, if_false, hp1, hp2]
      refine ⟨⟨rfl, ?_, ?_, trivial⟩, ?_, ?_, ?_, ?_, ?_⟩
      · simp [hvt]
      · simp
      · intro _; rfl
      · intro h; exact CycleOutcome.noConfusion h
      · intro _ h; exact CycleOutcome.noConfusion h
      · intro _ _; simp [lastReturnedFrom, hvt]
      · intro br2 e2 hb2 hvs2 _; exact absurd (hb7 br2 e2 hb2 hvs2) not_false
    | some t2 =>
    cases a2res with
    | error e1 =>
      simp only [tryBookVaccineCycle, getVaccinationSettings, hvs,
        returnedToken, ht1f, if_false, hp1, hp2]
      refine ⟨⟨rfl, ?_, ?_, ?_, trivial⟩, ?_, ?_, ?_, ?_, ?_⟩
      · simp [hvt]
      · simp
      · simp
      · intro _; rfl
      · intro h; exact CycleOutcome.noConfusion h
      · intro _ h; exact CycleOutcome.noConfusion h
      · intro _ _; simp [lastReturnedFrom, hvt]
      · intro br2 e2 hb2 hvs2 _; exact absurd (hb7 br2 e2 hb2 hvs2) not_false
    | ok a2 =>
    obtain ⟨a2avs, a2tot, a2tok⟩ := a2
    by_cases ht2 : a2tot = 0
    · subst ht2
      simp only [tryBookVaccineCycle, getVaccinationSettings, hvs,
        returnedToken, ht1f, if_false, hp1, hp2, beq_self_eq_true, if_true]
      refine ⟨⟨rfl, ?_, ?_, ?_, trivial⟩, ?_, ?_, ?_, ?_, ?_⟩
      · simp [hvt]
      · simp
      · simp
      · intro _; rfl
      · intro h; exact CycleOutcome.noConfusion h
      · intro _ h; exact CycleOutcome.noConfusion h
      · intro _ _; simp [lastReturnedFrom, hvt]
      · intro br2 e2 hb2 hvs2 _; exact absurd (hb7 br2 e2 hb2 hvs2) not_false
    · have ht2f : (a2tot == 0) = false := by
        simpa using ht2
      cases a2avs with
      | nil =>
        simp only [tryBookVaccineCycle, getVaccinationSettings, hvs,
          returnedToken, ht1f, ht2f, if_false, hp1, hp2]
        refine ⟨⟨rfl, ?_, ?_, ?_, trivial⟩, ?_, ?_, ?_, ?_, ?_⟩
        · simp [hvt]
        · simp
        · simp
        · intro h; exact CycleOutcome.noConfusion h
        · intro _; rfl
        · intro hws h
          obtain ⟨-, hw2, -⟩ := hws
          obtain ⟨av, avs, slx, sls, h1, -, -⟩ :=
            hw2 ⟨[], a2tot, a2tok⟩ rfl ht2
          exact List.noConfusion h1
        · intro _ _; simp [lastReturnedFrom, hvt]
        · intro br2 e2 hb2 hvs2 _; exact absurd (hb7 br2 e2 hb2 hvs2) not_false
      | cons bv0 bvRest =>
      obtain ⟨bvdate, bvslots⟩ := bv0
      cases bvslots with
      | nil =>
        simp only [tryBookVaccineCycle, getVaccinationSettings, hvs,
          returnedToken, ht1f, ht2f, if_false, hp1, hp2]
        refine ⟨⟨rfl, ?_, ?_, ?_, trivial⟩, ?_, ?_, ?_, ?_, ?_⟩
        · simp [hvt]
        · simp
        · simp
        · intro h; exact CycleOutcome.noConfusion h
        · intro _; rfl
        · intro hws h
          obtain ⟨-, hw2, -⟩ := hws
          obtain ⟨av, avs, slx, sls, h1, h2, -⟩ :=
            hw2 ⟨⟨bvdate, []⟩ :: bvRest, a2tot, a2tok⟩ rfl ht2
          rw [List.cons_eq_cons] at h1
          obtain ⟨h1a, -⟩ := h1
          rw [← h1a] at h2
          exact List.noConfusion h2
        · intro _ _; simp [lastReturnedFrom, hvt]
        · intro br2 e2 hb2 hvs2 _; exact absurd (hb7 br2 e2 hb2 hvs2) not_false
      | cons s20 s2Rest =>
      cases c2res with
      | error e1 =>
        simp only [tryBookVaccineCycle, getVaccinationSettings, hvs,
          returnedToken, ht1f, ht2f, if_false, hp1, hp2]
        refine ⟨⟨rfl, ?_, ?_, ?_, ?_, trivial⟩, ?_, ?_, ?_, ?_, ?_⟩
        · simp [hvt]
        · simp
        · simp
        · simp
        · intro _; rfl
        · intro h; exact CycleOutcome.noConfusion h
        · intro _ h; exact CycleOutcome.noConfusion h
        · intro _ _; simp [lastReturnedFrom, hvt]
        · intro br2 e2 hb2 hvs2 _; exact absurd (hb7 br2 e2 hb2 hvs2) not_false
      | ok c2r =>
      cases pres with
      | error e1 =>
        simp only [tryBookVaccineCycle, getVaccinationSettings, hvs,
          returnedToken, ht1f, ht2f, if_false, hp1, hp2]
        refine ⟨⟨rfl, ?_, ?_, ?_, ?_, ?_, trivial⟩, ?_, ?_, ?_, ?_, ?_⟩
        · simp [hvt]
        · simp
        · simp
        · simp
        · simp
        · intro _; rfl
        · intro h; exact CycleOutcome.noConfusion h
        · intro _ h; exact CycleOutcome.noConfusion h
        · intro _ _; simp [lastReturnedFrom, hvt]
        · intro br2 e2 hb2 hvs2 _; exact absurd (hb7 br2 e2 hb2 hvs2) not_false
      | ok pr =>
      obtain ⟨prlist, prtok⟩ := pr
      cases prlist with
      | nil =>
        simp only [tryBookVaccineCycle, getVaccinationSettings, hvs,
          returnedToken, ht1f, ht2f, if_false, hp1, hp2]
        refine ⟨⟨rfl, ?_, ?_, ?_, ?_, ?_, trivial⟩, ?_, ?_, ?_, ?_, ?_⟩
        · simp [hvt]
        · simp
        · simp
        · simp
        · simp
        · intro h; exact CycleOutcome.noConfusion h
        · intro _; rfl
        · intro hws h
          obtain ⟨-, -, hw3⟩ := hws
          exact absurd rfl (hw3 ⟨[], prtok⟩ rfl)
        · intro _ _; simp [lastReturnedFrom, hvt]
        · intro br2 e2 hb2 hvs2 _; exact absurd (hb7 br2 e2 hb2 hvs2) not_false
      | cons p0 pRest =>
      cases cfres with
      | error e1 =>
        simp only [tryBookVaccineCycle, getVaccinationSettings, hvs,
          returnedToken, ht1f, ht2f, if_false, hp1, hp2]
        refine ⟨⟨rfl, ?_, ?_, ?_, ?_, ?_, ?_, trivial⟩, ?_, ?_, ?_, ?_, ?_⟩
        · simp [hvt]
        · simp
        · simp
        · simp
        · simp
        · simp
        · intro _; rfl
        · intro h; exact CycleOutcome.noConfusion h
        · intro _ h; exact CycleOutcome.noConfusion h
        · intro _ _; simp [lastReturnedFrom, hvt]
        · intro br2 e2 hb2 hvs2 _; exact absurd (hb7 br2 e2 hb2 hvs2) not_false
      | ok cfr =>
        simp only [tryBookVaccineCycle, getVaccinationSettings, hvs,
          returnedToken, ht1f, ht2f, if_false, hp1, hp2]
        refine ⟨⟨rfl, ?_, ?_, ?_, ?_, ?_, ?_, trivial⟩, ?_, ?_, ?_, ?_, ?_⟩
        · simp [hvt]
        · simp
        · simp
        · simp
        · simp
        · simp
        · intro h; exact CycleOutcome.noConfusion h
        · intro h; exact CycleOutcome.noConfusion h
        · intro _ h; exact CycleOutcome.noConfusion h
        · intro _ hne; exact absurd rfl hne
        · intro br2 e2 hb2 hvs2 _; exact absurd (hb7 br2 e2 hb2 hvs2) not_false

/-- C6: settings resolution agrees (up to error message text) with the spec
description: it succeeds exactly when exactly one visit motive matches the
known offering label and at least one non-disabled agenda carries that motive
id, and then returns that single motive id, the ids of every eligible agenda,
and the practice ids deduplicated in first-seen order; when the number of
matching motives is not one the resolution is an error, and on any settings
resolution error the worker cycle that fetched this booking response attempts
no network booking call: its only remote call is the settings fetch itself,
and in particular no create or confirm call is issued. -/
theorem claim6SettingsResolverRefinesSpec (resp : BookingResponse) :
    sameExceptMessage (getVaccinationSettingsOfBooking resp)
      (specResolveSettings resp) ∧
    ((motiveMatches resp).length ≠ 1 →
      ∃ e, getVaccinationSettingsOfBooking resp = .error e) ∧
    (∀ e, getVaccinationSettingsOfBooking resp = .error e →
      ∀ env vaccinationCenter tok, env.bookingRes = .ok resp →
        ((tryBookVaccineCycle env vaccinationCenter tok).calls = [] ∨
         (tryBookVaccineCycle env vaccinationCenter tok).calls =
           [{ kind := .booking vaccinationCenter, presented := tok
              returned := some resp.csrfToken }]) ∧
        (tryBookVaccineCycle env vaccinationCenter tok).calls.filter
          isCreateOrConfirm = []) := by
  have hsame := settingsResolverAgreesSpec resp
  refine ⟨hsame, ?_, ?_⟩
  · intro hne
    have hspec : ∃ e2, specResolveSettings resp = .error e2 := by
      unfold specResolveSettings
      rcases hcase : motiveMatches resp with - | ⟨m, - | ⟨m2, rest2⟩⟩
      · exact ⟨_, rfl⟩
      · exfalso
        exact hne (by rw [hcase]; rfl)
      · exact ⟨_, rfl⟩
    obtain ⟨e2, he2⟩ := hspec
    cases hcode : getVaccinationSettingsOfBooking resp with
    | error e => exact ⟨e, rfl⟩
    | ok vs =>
      rw [hcode, he2] at hsame
      exact hsame.elim
  · intro e herr env vaccinationCenter tok henv
    by_cases hsd : env.stopAtDequeue = true
    · have hcalls : (tryBookVaccineCycle env vaccinationCenter tok).calls
          = [] := by
        simp [tryBookVaccineCycle, hsd]
      refine ⟨Or.inl hcalls, ?_⟩
      rw [hcalls]
      rfl
    · have hsd2 : env.stopAtDequeue = false := Bool.eq_false_iff.mpr hsd
      have h6 := (cycleCaseFacts env vaccinationCenter tok).2.2.2.2.2 resp e
        henv herr hsd2
      refine ⟨Or.inr h6.2, ?_⟩
      rw [h6.2]
      rfl

/-- C6 witness: at a booking response with zero matching motives, resolution
fails and the demonstration cycle that fetched it issues no create or confirm
call. -/
theorem claim6SettingsResolverRefinesSpecWitness :
    (tryBookVaccineCycle c4DropEnv "center-a" "T0").calls.filter
      isCreateOrConfirm = [] := by
  have h := claim6SettingsResolverRefinesSpec
    { data := { profile := { id := 7 }, visitMotives := [], agendas := [] }
      csrfToken := "T1" }
  exact (h.2.2 "cannot find any visit motive ID for vaccination center" rfl
    c4DropEnv "center-a" "T0" rfl).2

/-- C7: with an anchor date the availability request goes to the follow-up
endpoint variant and carries the anchor in the first-slot parameter without
the discard-unconfirmed-holds directive; without an anchor it goes to the
ordinary availabilities endpoint and ends in the directive telling the server
to discard stale unconfirmed holds. -/
theorem claim7AvailabilitiesEndpoint (formattedStartDate : String)
    (formattedFirstSlot : String) (visitMotiveIds agendaIds practiceIds :
    List Int) (limit : Int) :
    getAvailabilitiesUrl formattedStartDate (some formattedFirstSlot)
        visitMotiveIds agendaIds practiceIds limit =
      "https://doctolib.fr/second_shot_availabilities.json?start_date=" ++
        formattedStartDate ++ "&limit=" ++ toString limit ++
        "&visit_motive_ids=" ++ formatIdList visitMotiveIds ++
        "&agenda_ids=" ++ formatIdList agendaIds ++ "&practice_ids=" ++
        formatIdList practiceIds ++ "&insurance_sector=public&first_slot=" ++
        formattedFirstSlot ∧
    getAvailabilitiesUrl formattedStartDate none visitMotiveIds agendaIds
        practiceIds limit =
      "https://doctolib.fr/availabilities.json?start_date=" ++
        formattedStartDate ++ "&limit=" ++ toString limit ++
        "&visit_motive_ids=" ++ formatIdList visitMotiveIds ++
        "&agenda_ids=" ++ formatIdList agendaIds ++ "&practice_ids=" ++
        formatIdList practiceIds ++
        "&insurance_sector=public&destroy_temporary=true" := by
  constructor <;>
    simp [getAvailabilitiesUrl, RootUrl, String.append_assoc]

theorem foldlDiscardsCopies (l : List MasterPatient) :
    ∀ acc : List MasterPatient,
      List.foldl
        (fun current masterPatient =>
          let _copy := normalizeMasterPatientCopy masterPatient
          current) acc l = acc := by
  induction l with
  | nil => intro acc; rfl
  | cons x xs ih => intro acc; exact ih acc

/-- The range loop of GetMasterPatients leaves the decoded slice untouched. -/
theorem masterPatientsAfterLoopId (l : List MasterPatient) :
    masterPatientsAfterLoop l = l :=
  foldlDiscardsCopies l l

/-- C10: GetMasterPatients hands the decoded patient records back unchanged:
the loop that assigns the insurance-mismatch and consent flags mutates value
copies, so every returned record, including those two fields, equals the
decoded one. -/
theorem claim10PatientsReturnedAsDecoded (decoded : List MasterPatient)
    (headerToken : String) (h : headerToken ≠ "") :
    getMasterPatientsResult decoded headerToken =
      .ok { masterPatients := decoded, csrfToken := headerToken } ∧
    ∀ r, getMasterPatientsResult decoded headerToken = .ok r →
      r.masterPatients.map (fun p => p.mismatchInsurance) =
        decoded.map (fun p => p.mismatchInsurance) ∧
      r.masterPatients.map (fun p => p.consented) =
        decoded.map (fun p => p.consented) := by
  have hbe : (headerToken == "") = false := by
    simpa using h
  have hok : getMasterPatientsResult decoded headerToken =
      .ok { masterPatients := decoded, csrfToken := headerToken } := by
    unfold getMasterPatientsResult
    rw [masterPatientsAfterLoopId]
    simp [hbe]
  refine ⟨hok, ?_⟩
  intro r hr
  rw [hok] at hr
  injection hr with hr
  subst hr
  exact ⟨rfl, rfl⟩

/-- C10 witness: a patient whose flags differ from the values the loop tries
to write comes back with its original flags. -/
theorem claim10PatientsReturnedAsDecodedWitness :
    getMasterPatientsResult [demoPatient] "T6" =
      .ok { masterPatients := [demoPatient], csrfToken := "T6" } :=
  (claim10PatientsReturnedAsDecoded [demoPatient] "T6" (by decide)).1

/-- C3 counterexample: a first-dose availabilities response reporting one
availability while carrying an empty availability list makes the worker
crash with the lock held, instead of abandoning the cycle. -/
theorem claim3Counterexample :
    (tryBookVaccineCycle c3EmptyListEnv "center-b" "T0").outcome =
      .crashed ∧
    (tryBookVaccineCycle c3EmptyListEnv "center-b" "T0").outcome ≠
      .toIdle ∧
    (tryBookVaccineCycle c3EmptyListEnv "center-b" "T0").lockHeldAtExit =
      true := by
  refine ⟨by decide, by decide, by decide⟩

/-- C3 amended: a cycle that goes back to Idle has always released the lock,
and with well-shaped responses (non-zero totals come with non-empty
availability and slot lists, the chosen slot carries its second step, and the
patient list is non-empty) no cycle crashes; but a crash, when a malformed
response triggers one, always happens with the lock held. -/
theorem claim3PerCycleFailuresNonFatal (env : CycleEnv)
    (vaccinationCenter tok : String) :
    ((tryBookVaccineCycle env vaccinationCenter tok).outcome = .toIdle →
      (tryBookVaccineCycle env vaccinationCenter tok).lockHeldAtExit =
        false) ∧
    (wellShapedEnv env →
      (tryBookVaccineCycle env vaccinationCenter tok).outcome ≠ .crashed) ∧
    ((tryBookVaccineCycle env vaccinationCenter tok).outcome = .crashed →
      (tryBookVaccineCycle env vaccinationCenter tok).lockHeldAtExit =
        true) := by
  have h := cycleCaseFacts env vaccinationCenter tok
  exact ⟨h.2.1, h.2.2.2.1, h.2.2.1⟩

/-- C3 witness: the well-shaped demonstration oracle never crashes, and a
cycle ending back in Idle has released the lock. -/
theorem claim3PerCycleFailuresNonFatalWitness :
    (tryBookVaccineCycle c2OnePatientEnv "center-b" "T0").outcome ≠
      .crashed := by
  have h := claim3PerCycleFailuresNonFatal c2OnePatientEnv "center-b" "T0"
  refine h.2.1 ⟨?_, ?_, ?_⟩
  · intro a ha htot
    injection ha with ha
    subst ha
    exact ⟨_, _, _, _, rfl, rfl, fun _ => ⟨_, _, _, rfl⟩⟩
  · intro a ha htot
    injection ha with ha
    subst ha
    exact ⟨_, _, _, _, rfl, rfl, fun hc => Bool.noConfusion hc⟩
  · intro p hp
    injection hp with hp
    subst hp
    exact fun hc => List.noConfusion hc

/-- C4 counterexample: when the booking fetch succeeds with fresh token T1 but
settings resolution then fails, the worker keeps its old token T0, and its
next remote call presents T0 although the most recent successful call
returned T1. -/
theorem claim4Counterexample :
    (tryBookVaccineCycle c4DropEnv "center-a" "T0").calls =
      [{ kind := .booking "center-a", presented := "T0"
         returned := some "T1" }] ∧
    (tryBookVaccineCycle c4DropEnv "center-a" "T0").token = "T0" ∧
    (tryBookVaccineCycle c4DropEnv "center-a"
        (tryBookVaccineCycle c4DropEnv "center-a" "T0").token).calls.map
      (fun cr => cr.presented) = ["T0"] ∧
    "T0" ≠ "T1" := by
  refine ⟨by decide, by decide, by decide, by decide⟩

/-- C4 amended: within a cycle every call presents the token returned by the
call just before it (the first presents the entry token); except in the booked
case and the settings-drop case, the exit token is the token returned by the
last successful call; but when the booking fetch succeeds and settings
resolution then fails, the fetched token is dropped and the exit token is the
entry token. -/
theorem claim4TokenCarrying (env : CycleEnv)
    (vaccinationCenter tok : String) :
    chainedFrom tok
      (tryBookVaccineCycle env vaccinationCenter tok).calls ∧
    (¬ settingsDropCase env →
      (tryBookVaccineCycle env vaccinationCenter tok).outcome ≠ .booked →
      (tryBookVaccineCycle env vaccinationCenter tok).token =
        lastReturnedFrom tok
          (tryBookVaccineCycle env vaccinationCenter tok).calls) ∧
    (∀ br2 e2, env.bookingRes = .ok br2 →
      getVaccinationSettingsOfBooking br2 = .error e2 →
      env.stopAtDequeue = false →
      (tryBookVaccineCycle env vaccinationCenter tok).token = tok ∧
      (tryBookVaccineCycle env vaccinationCenter tok).calls =
        [{ kind := .booking vaccinationCenter, presented := tok
           returned := some br2.csrfToken }]) := by
  have h := cycleCaseFacts env vaccinationCenter tok
  exact ⟨h.1, h.2.2.2.2.1, h.2.2.2.2.2⟩

/-- C4 witness: the amended statement applied to the settings-drop
demonstration oracle. -/
theorem claim4TokenCarryingWitness :
    chainedFrom "T0"
      (tryBookVaccineCycle c4DropEnv "center-a" "T0").calls ∧
    (tryBookVaccineCycle c4DropEnv "center-a" "T0").token = "T0" := by
  have h := claim4TokenCarrying c4DropEnv "center-a" "T0"
  refine ⟨h.1, ?_⟩
  exact (h.2.2 { data := { profile := { id := 7 }, visitMotives := []
                           agendas := [] }
                 csrfToken := "T1" }
    "cannot find any visit motive ID for vaccination center"
    rfl rfl rfl).1

/-- C2 counterexample: an otherwise fully successful cycle whose patients
response decodes to an empty list crashes the worker (index out of range)
with the lock held, instead of being treated as a per-cycle failure. -/
theorem claim2Counterexample :
    (tryBookVaccineCycle c2EmptyPatientsEnv "center-b" "T0").outcome =
      .crashed ∧
    (tryBookVaccineCycle c2EmptyPatientsEnv "center-b" "T0").outcome ≠
      .toIdle ∧
    (tryBookVaccineCycle c2EmptyPatientsEnv "center-b" "T0").lockHeldAtExit
      = true :=
  ⟨by decide, by decide, by decide⟩

/-- C2 amended: after the combined second appointment is created the worker
fetches the known patients; an empty returned list makes it panic while still
holding the lock (there is no emptiness check), and otherwise the patient at
index 0 is the one passed to the confirm call. -/
theorem claim2PatientRequirement
    (vaccinationCenter tok0 : String) (tomorrow : GoTime)
    (parse : String → Option GoTime) (br : BookingResponse)
    (vs : VaccinationSettings) (a1 : AvailabilitiesResponse)
    (av0 : Availability) (avRest : List Availability)
    (slot0 : AvailabilitySlot) (slRest : List AvailabilitySlot)
    (st0 st1 : AvailabilitySlotStep) (stRest : List AvailabilitySlotStep)
    (t1 t2 : GoTime) (c1r : CreateAppointmentResponse)
    (a2 : AvailabilitiesResponse) (bv0 : Availability)
    (bvRest : List Availability) (s2 : AvailabilitySlot)
    (s2Rest : List AvailabilitySlot) (c2r : CreateAppointmentResponse)
    (pr : MasterPatientsResponse) (cfr : ConfirmAppointmentResponse)
    (hvs : getVaccinationSettingsOfBooking br = .ok vs)
    (ha1 : (a1.total == 0) = false)
    (hav : a1.availabilities = av0 :: avRest)
    (hsl : av0.slots = slot0 :: slRest)
    (hst : slot0.steps = st0 :: st1 :: stRest)
    (hp1 : parse st1.startDate = some t1)
    (hp2 : parse slot0.startDate = some t2)
    (ha2 : (a2.total == 0) = false)
    (hbv : a2.availabilities = bv0 :: bvRest)
    (hs2 : bv0.slots = s2 :: s2Rest) :
    (pr.masterPatients = [] →
      (tryBookVaccineCycle (happyEnv tomorrow parse br a1 c1r a2 c2r pr cfr)
          vaccinationCenter tok0).outcome = .crashed ∧
      (tryBookVaccineCycle (happyEnv tomorrow parse br a1 c1r a2 c2r pr cfr)
          vaccinationCenter tok0).lockHeldAtExit = true) ∧
    (∀ p0 pRest, pr.masterPatients = p0 :: pRest →
      (tryBookVaccineCycle (happyEnv tomorrow parse br a1 c1r a2 c2r pr cfr)
          vaccinationCenter tok0).outcome = .booked ∧
      (tryBookVaccineCycle (happyEnv tomorrow parse br a1 c1r a2 c2r pr cfr)
          vaccinationCenter tok0).calls.getLast? =
        some { kind := .confirmAppointment c1r.id slot0.startDate p0
               presented := pr.csrfToken, returned := some cfr.csrfToken }) := by
  constructor
  · intro hpat0
    refine ⟨?_, ?_⟩ <;>
      simp only [tryBookVaccineCycle, happyEnv, getVaccinationSettings, hvs,
        ha1, hav, hsl, hst, hp1, hp2, ha2, hbv, hs2, hpat0, returnedToken,
        Bool.false_eq_true, if_false]
  · intro p0 pRest hpat
    rw [happyCycleEq vaccinationCenter tok0 tomorrow parse br vs a1 av0
      avRest slot0 slRest st0 st1 stRest t1 t2 c1r a2 bv0 bvRest s2 s2Rest
      c2r pr p0 pRest cfr hvs ha1 hav hsl hst hp1 hp2 ha2 hbv hs2 hpat]
    exact ⟨rfl, rfl⟩

/-- C2 witness: the amended statement applied to the one-patient
demonstration oracle. -/
theorem claim2PatientRequirementWitness :
    (tryBookVaccineCycle c2OnePatientEnv "center-b" "T0").outcome =
      .booked ∧
    (tryBookVaccineCycle c2OnePatientEnv "center-b" "T0").calls.getLast? =
      some { kind := .confirmAppointment "A1" demoSlot.startDate demoPatient
             presented := "T6", returned := some "T7" } := by
  have h := claim2PatientRequirement "center-b" "T0" { rep := "2021-05-27" }
    demoParse demoBookingResponse
    { profileId := 7, visitMotiveIds := [11], agendaIds := [21]
      practiceIds := [31], csrfToken := "T1" }
    demoFirstAvail { date := "2021-05-27", slots := [demoSlot] } [] demoSlot
    [] { startDate := "2021-05-27T10:00:00.000+02:00" }
    { startDate := "2021-07-08T10:00:00.000+02:00" } []
    { rep := "2021-07-08T10:00:00.000+02:00" }
    { rep := "2021-05-27T10:00:00.000+02:00" }
    { id := "A1", csrfToken := "T3" } demoSecondAvail
    { date := "2021-07-08"
      slots := [{ startDate := "2021-07-08T11:00:00.000+02:00"
                  steps := [] }] } []
    { startDate := "2021-07-08T11:00:00.000+02:00", steps := [] } []
    { id := "A2", csrfToken := "T5" }
    { masterPatients := [demoPatient], csrfToken := "T6" }
    { csrfToken := "T7" }
    rfl (by decide) rfl rfl rfl rfl rfl (by decide) rfl rfl
  exact h.2 demoPatient [] rfl

/-- C5 witness: the round-trip statement applied to the one-patient
demonstration oracle. -/
theorem claim5RoundTripSequenceWitness :
    (tryBookVaccineCycle c2OnePatientEnv "center-b" "T0").calls.filter
      isCreateOrConfirm =
      [{ kind := .createAppointment demoSlot.startDate "" [11] [21] [31] 7
         presented := "T2", returned := some "T3" },
       { kind := .createAppointment demoSlot.startDate
           "2021-07-08T11:00:00.000+02:00" [11] [21] [31] 7
         presented := "T4", returned := some "T5" },
       { kind := .confirmAppointment "A1" demoSlot.startDate demoPatient
         presented := "T6", returned := some "T7" }] ∧
    chainedFrom "T0"
      (tryBookVaccineCycle c2OnePatientEnv "center-b" "T0").calls ∧
    (tryBookVaccineCycle c2OnePatientEnv "center-b" "T0").outcome =
      .booked := by
  have h := claim5RoundTripSequence "center-b" "T0" { rep := "2021-05-27" }
    demoParse demoBookingResponse
    { profileId := 7, visitMotiveIds := [11], agendaIds := [21]
      practiceIds := [31], csrfToken := "T1" }
    demoFirstAvail { date := "2021-05-27", slots := [demoSlot] } [] demoSlot
    [] { startDate := "2021-05-27T10:00:00.000+02:00" }
    { startDate := "2021-07-08T10:00:00.000+02:00" } []
    { rep := "2021-07-08T10:00:00.000+02:00" }
    { rep := "2021-05-27T10:00:00.000+02:00" }
    { id := "A1", csrfToken := "T3" } demoSecondAvail
    { date := "2021-07-08"
      slots := [{ startDate := "2021-07-08T11:00:00.000+02:00"
                  steps := [] }] } []
    { startDate := "2021-07-08T11:00:00.000+02:00", steps := [] } []
    { id := "A2", csrfToken := "T5" }
    { masterPatients := [demoPatient], csrfToken := "T6" } demoPatient []
    { csrfToken := "T7" }
    rfl (by decide) rfl rfl rfl rfl rfl (by decide) rfl rfl (by decide) rfl
  exact ⟨h.1, h.2.2.1, h.2.2.2⟩

theorem listGetQSetOther {α : Type} (l : List α) (i j : Nat) (a : α)
    (h : i ≠ j) : (l.set i a).get? j = l.get? j := by
  induction l generalizing i j with
  | nil => rfl
  | cons x xs ih =>
    cases i with
    | zero =>
      cases j with
      | zero => exact absurd rfl h
      | succ jj => rfl
    | succ ii =>
      cases j with
      | zero => rfl
      | succ jj =>
        have hij : ii ≠ jj := fun hc => h (by rw [hc])
        simpa using ih ii jj hij

/-- Writing one bot's token never changes another bot's token: the carriers
are per worker, not shared. -/
theorem writeBotTokenOtherUnchanged (bots : List VaccibotSession)
    (i j : Nat) (tokv : String) (h : i ≠ j) :
    (writeBotToken bots i tokv).get? j = bots.get? j := by
  unfold writeBotToken
  cases hb : bots.get? i with
  | none => rfl
  | some bot => exact listGetQSetOther bots i j _ h

/-- C9 counterexample: with two workers, worker creation performs two logins
(not one), each bot keeps the token of its own login, and writing worker 0's
token leaves worker 1's token untouched — there is no shared session-token
carrier. -/
theorem claim9Counterexample :
    mainCreateVaccibots 2 c9Logins = .ok (c9Bots, 2) ∧
    (2 : Nat) ≠ 1 ∧
    writeBotToken c9Bots 0 "TX" =
      [{ name := "Worker 1", currentCsrfToken := "TX" },
       { name := "Worker 2", currentCsrfToken := "TB" }] ∧
    c9Bots.get? 0 ≠ c9Bots.get? 1 :=
  ⟨rfl, by decide, rfl, by decide⟩

/-- C9 amended: each of the N workers owns its own session: worker creation
issues one login per worker, bot i starts with the token returned by login i,
and a token written into one bot's carrier is invisible to every other bot. -/
theorem claim9PerWorkerSessions (n : Nat)
    (logins : Nat → Except String LoginResponse)
    (bots : List VaccibotSession) (loginCount : Nat)
    (h : mainCreateVaccibots n logins = .ok (bots, loginCount)) :
    loginCount = n ∧ bots.length = n ∧
    (∀ i, i < n → ∃ lr, logins i = .ok lr ∧
      bots.get? i = some { name := "Worker " ++ toString (i + 1)
                           currentCsrfToken := lr.csrfToken }) ∧
    (∀ i j tokv, i ≠ j →
      (writeBotToken bots i tokv).get? j = bots.get? j) := by
  have main : loginCount = n ∧ bots.length = n ∧
      (∀ i, i < n → ∃ lr, logins i = .ok lr ∧
        bots.get? i = some { name := "Worker " ++ toString (i + 1)
                             currentCsrfToken := lr.csrfToken }) := by
    induction n generalizing bots loginCount with
    | zero =>
      simp only [mainCreateVaccibots] at h
      rw [Except.ok.injEq, Prod.mk.injEq] at h
      obtain ⟨h1, h2⟩ := h
      subst h1
      subst h2
      exact ⟨rfl, rfl, fun i hi => absurd hi (Nat.not_lt_zero i)⟩
    | succ m ih =>
      simp only [mainCreateVaccibots] at h
      cases hm : mainCreateVaccibots m logins with
      | error e =>
        rw [hm] at h
        exact Except.noConfusion h
      | ok pr0 =>
        obtain ⟨bots0, lc0⟩ := pr0
        rw [hm] at h
        cases hl : logins m with
        | error e =>
          simp only [NewVaccibot, hl] at h
          exact Except.noConfusion h
        | ok lr =>
          simp only [NewVaccibot, hl] at h
          rw [Except.ok.injEq, Prod.mk.injEq] at h
          obtain ⟨h1, h2⟩ := h
          subst h1
          subst h2
          obtain ⟨ihc, ihl, ihg⟩ := ih bots0 lc0 hm
          refine ⟨by rw [ihc], by simp [ihl], ?_⟩
          intro i hi
          rcases Nat.lt_succ_iff_lt_or_eq.mp hi with hlt | heq
          · obtain ⟨lr2, hlr2, hbot⟩ := ihg i hlt
            refine ⟨lr2, hlr2, ?_⟩
            rw [List.get?_append (by rw [ihl]; exact hlt)]
            exact hbot
          · subst heq
            refine ⟨lr, hl, ?_⟩
            rw [← ihl, List.get?_concat_length]
  exact ⟨main.1, main.2.1, main.2.2,
    fun i j tokv hij => writeBotTokenOtherUnchanged bots i j tokv hij⟩

/-- C9 amended witness: the per-worker-session statement applied to the
two-worker demonstration. -/
theorem claim9PerWorkerSessionsWitness :
    (2 : Nat) = 2 ∧ c9Bots.length = 2 ∧
    (∀ i, i < 2 → ∃ lr, c9Logins i = .ok lr ∧
      c9Bots.get? i = some { name := "Worker " ++ toString (i + 1)
                             currentCsrfToken := lr.csrfToken }) ∧
    (∀ i j tokv, i ≠ j →
      (writeBotToken c9Bots i tokv).get? j = c9Bots.get? j) :=
  claim9PerWorkerSessions 2 c9Logins c9Bots 2 rfl

end Govaccine
